import Mathlib

/-! The mall-go front-end request clients.

A shallow embedding of the two HTTP client wrappers of the repository:

* `utils/request.js`: the `Request` class used by the mini-program services
  (a promise around `wx.request`);
* `frontend/shop/src/api/request.js`: the axios instance of the shop
  storefront with its request and response interceptors.

JavaScript values are a small inductive type, the host primitives
(`wx.request`, `wx.showToast`, `wx.switchTab`, the storage, `console.error`)
are recorded as an ordered list of effects, and the credential store is passed
explicitly.
-/

namespace MallGo

/-! ## JavaScript values -/

/-- The JavaScript values the clients handle. Numbers are integers (the code
only compares them with `200` and `401` and tests them for truthiness). An
object is the list of its property definitions in source order; as in an object
literal or a decoded JSON text, a later definition of a key overrides an
earlier one. -/
inductive JsVal where
  | undefined
  | null
  | bool (b : Bool)
  | num (n : Int)
  | str (s : String)
  | arr (items : List JsVal)
  | obj (props : List (String × JsVal))

/-- The values a promise is rejected with or a callback throws. -/
inductive JsError where
  /-- The value of `new Error(message)`. -/
  | error (message : String)
  /-- The `TypeError` the engine raises when a property of `undefined` or
  `null` is read. -/
  | typeError
  deriving DecidableEq

namespace JsVal

/-- The test `if (v)`: JavaScript truthiness. -/
def truthy : JsVal → Bool
  | undefined => false
  | null => false
  | bool b => b
  | num n => n != 0
  | str s => s != ""
  | arr _ => true
  | obj _ => true

/-- The expression `a || b`. -/
def or (a b : JsVal) : JsVal :=
  if a.truthy then a else b

/-- The test `v === n` against a number literal. -/
def isNum (v : JsVal) (n : Int) : Bool :=
  match v with
  | num m => m == n
  | _ => false

/-- The test `v !== undefined`. -/
def isDefined : JsVal → Bool
  | undefined => false
  | _ => true

/-- The value of key `k` in a list of property definitions: the last
definition of `k` wins. -/
def lookupProp (k : String) : List (String × JsVal) → Option JsVal
  | [] => none
  | p :: rest =>
    match lookupProp k rest with
    | some w => some w
    | none => if p.1 = k then some p.2 else none

/-- The property read `v.k`. Reading a property of `undefined` or `null`
throws; an object yields the property or `undefined`; the other values have
none of the properties the clients read (`code`, `data`, `message`, `header`,
`url`, `method`), so the read yields `undefined`. -/
def getProp (v : JsVal) (k : String) : Except JsError JsVal :=
  match v with
  | undefined => .error .typeError
  | null => .error .typeError
  | obj props => .ok ((lookupProp k props).getD undefined)
  | _ => .ok undefined

mutual
/-- The string conversion used by a template literal and by `+` with a string
operand. -/
def toStr : JsVal → String
  | undefined => "undefined"
  | null => "null"
  | bool b => if b then "true" else "false"
  | num n => toString n
  | str s => s
  | arr items => joinStr items
  | obj _ => "[object Object]"
/-- The text of `Array.prototype.join` with the default separator: `undefined`
and `null` elements give the empty string. -/
def joinStr : List JsVal → String
  | [] => ""
  | [x] => elemStr x
  | x :: y :: rest => elemStr x ++ "," ++ joinStr (y :: rest)
/-- The text of one array element inside a join. -/
def elemStr : JsVal → String
  | undefined => ""
  | null => ""
  | bool b => if b then "true" else "false"
  | num n => toString n
  | str s => s
  | arr items => joinStr items
  | obj _ => "[object Object]"
end

/-- Pairs the elements of a list with their indices as property names, from
index `i` on. -/
def indexedFrom (i : Nat) : List JsVal → List (String × JsVal)
  | [] => []
  | x :: rest => (toString i, x) :: indexedFrom (i + 1) rest

/-- The own enumerable properties an object spread `...v` copies: nothing for
`undefined`, `null`, booleans and numbers, the properties of an object, the
indexed elements of an array and the indexed characters of a string. -/
def ownEnumerableProps : JsVal → List (String × JsVal)
  | obj props => props
  | arr items => indexedFrom 0 items
  | str s => indexedFrom 0 (s.data.map fun c => str (String.singleton c))
  | _ => []

end JsVal

/-- The value of `new Error(v)`: the message is the string conversion of `v`,
and empty when `v` is `undefined`. -/
def mkError (v : JsVal) : JsError :=
  match v with
  | .undefined => .error ""
  | w => .error w.toStr

/-! ## Host primitives of the mini-program -/

/-- The argument object of `wx.request` without its two callbacks. -/
structure WxRequest where
  url : String
  method : JsVal
  data : JsVal
  header : List (String × JsVal)
  timeout : Int

/-- The object `wx.request` passes to the `success` callback. -/
structure WxResponse where
  statusCode : Int
  data : JsVal

/-- How the transport ends a request: it calls `success` with a response or
`fail` with an error object. -/
inductive TransportOutcome where
  | success (res : WxResponse)
  | fail (err : JsVal)

/-- The observable actions of a call, in the order they happen. -/
inductive Effect where
  | wxRequest (req : WxRequest)
  | removeStorage (key : String)
  | showToast (title : JsVal) (icon : String)
  | switchTab (url : String)
  | consoleError (label : String) (arg : JsVal)
  /-- The call `console.error(label, error)` with a caught error. -/
  | consoleErrorCaught (label : String) (error : JsError)
  | resolve (value : JsVal)
  | reject (reason : JsError)
  /-- An exception leaves a callback uncaught. -/
  | uncaught (reason : JsError)

/-- The key-value storage of the mini-program, which holds the credential
entries `token` and `userInfo`. -/
abbrev Storage := List (String × JsVal)

/-- The entry stored under `key`, if any. -/
def Storage.entry (storage : Storage) (key : String) : Option JsVal :=
  storage.lookup key

/-- The call `wx.getStorageSync(key)`: the stored value, or the empty string
when there is none. -/
def getStorageSync (storage : Storage) (key : String) : JsVal :=
  (storage.entry key).getD (.str "")

/-- The call `wx.removeStorageSync(key)`. -/
def removeStorageSync (storage : Storage) (key : String) : Storage :=
  storage.filter fun p => p.1 != key

namespace Effect

/-- The values `resolve` was called with, in order. -/
def resolved : List Effect → List JsVal
  | [] => []
  | resolve v :: rest => v :: resolved rest
  | _ :: rest => resolved rest

/-- The reasons `reject` was called with, in order. -/
def rejected : List Effect → List JsError
  | [] => []
  | reject e :: rest => e :: rejected rest
  | _ :: rest => rejected rest

/-- The toasts shown, in order. -/
def toasts : List Effect → List (JsVal × String)
  | [] => []
  | showToast t i :: rest => (t, i) :: toasts rest
  | _ :: rest => toasts rest

/-- The targets of `wx.switchTab`, in order. -/
def redirects : List Effect → List String
  | [] => []
  | switchTab u :: rest => u :: redirects rest
  | _ :: rest => redirects rest

/-- The keys removed from the storage, in order. -/
def removals : List Effect → List String
  | [] => []
  | removeStorage k :: rest => k :: removals rest
  | _ :: rest => removals rest

/-- The requests handed to the transport, in order. -/
def sent : List Effect → List WxRequest
  | [] => []
  | wxRequest r :: rest => r :: sent rest
  | _ :: rest => sent rest

end Effect

/-! ## `utils/request.js` -/

/-- The fields of a `Request` instance. -/
structure Request where
  baseURL : String
  timeout : Int

/-- The constructor: `baseURL` comes from the configuration module, which is
a parameter here, and `timeout` is `10000`. -/
def Request.new (configBaseURL : String) : Request :=
  ⟨configBaseURL, 10000⟩

/-- The header object of `request`: the literal with the default
`Content-Type` and the spread of `options.header`, then the assignment of
`header.Authorization` when the token is truthy. -/
def buildHeader (token : JsVal) (optHeader : JsVal) : List (String × JsVal) :=
  let header := ("Content-Type", JsVal.str "application/json") :: optHeader.ownEnumerableProps
  if token.truthy then
    header ++ [("Authorization", JsVal.str ("Bearer " ++ token.toStr))]
  else
    header

/-- The `success` callback of `request`. Reading a property of `res.data`
throws when the body is `undefined` or `null`; the exception leaves the
callback and the promise is not settled. -/
def onSuccess (storage : Storage) (res : WxResponse) : Storage × List Effect :=
  if res.statusCode = 200 then
    match res.data.getProp "code" with
    | .error e => (storage, [.uncaught e])
    | .ok code =>
      if code.isNum 200 then
        match res.data.getProp "data" with
        | .error e => (storage, [.uncaught e])
        | .ok data =>
          if data.isDefined then
            (storage, [.resolve data])
          else
            (storage, [.resolve res.data])
      else if code.isNum 401 then
        (removeStorageSync (removeStorageSync storage "token") "userInfo",
          [.removeStorage "token", .removeStorage "userInfo",
           .showToast (.str "请重新登录") "none",
           .switchTab "/pages/user/index",
           .reject (mkError (.str "未授权"))])
      else
        match res.data.getProp "message" with
        | .error e => (storage, [.uncaught e])
        | .ok message =>
          (storage,
            [.showToast (message.or (.str "请求失败")) "none",
             .reject (mkError (message.or (.str "请求失败")))])
  else
    (storage, [.showToast (.str "网络错误") "none", .reject (mkError (.str "网络错误"))])

/-- The `fail` callback of `request`. -/
def onFail (storage : Storage) (err : JsVal) : Storage × List Effect :=
  (storage,
    [.consoleError "Request failed:" err,
     .showToast (.str "网络连接失败") "none",
     .reject (mkError (.str "网络连接失败"))])

/-- The transport request `request` builds from `options` and the stored
token. Reading a property of `options` throws when `options` is `undefined` or
`null`. -/
def Request.buildRequest (self : Request) (storage : Storage) (options : JsVal) :
    Except JsError WxRequest :=
  let token := getStorageSync storage "token"
  match options.getProp "header", options.getProp "url", options.getProp "method",
      options.getProp "data" with
  | .ok h, .ok url, .ok method, .ok data =>
    .ok ⟨self.baseURL ++ url.toStr, method.or (.str "GET"), data.or (.obj []),
      buildHeader token h, self.timeout⟩
  | .error e, _, _, _ => .error e
  | _, .error e, _, _ => .error e
  | _, _, .error e, _ => .error e
  | _, _, _, .error e => .error e

/-- The method `request(options)`, run to the end of the transport's callback:
the storage afterwards and the effects in order. An exception inside the
promise executor rejects the promise. -/
def Request.request (self : Request) (storage : Storage) (options : JsVal)
    (outcome : TransportOutcome) : Storage × List Effect :=
  match self.buildRequest storage options with
  | .error e => (storage, [.reject e])
  | .ok req =>
    let after :=
      match outcome with
      | .success res => onSuccess storage res
      | .fail err => onFail storage err
    (after.1, .wxRequest req :: after.2)

/-- A parameter with a default value, `p = d` in a parameter list: the default
is used when the argument is `undefined`. -/
def defaultArg (arg d : JsVal) : JsVal :=
  match arg with
  | .undefined => d
  | w => w

/-- The object literal the four verb methods pass to `request`: `url`, the
verb and `data`, then the spread of `options`, whose properties override the
three before it. -/
def verbOptions (verb : String) (url data options : JsVal) : JsVal :=
  .obj ([("url", url), ("method", .str verb), ("data", data)] ++ options.ownEnumerableProps)

/-- The method `get(url, data = {}, options = {})`. -/
def Request.get (self : Request) (storage : Storage) (url data options : JsVal)
    (outcome : TransportOutcome) : Storage × List Effect :=
  self.request storage
    (verbOptions "GET" url (defaultArg data (.obj [])) (defaultArg options (.obj []))) outcome

/-- The method `post(url, data = {}, options = {})`. -/
def Request.post (self : Request) (storage : Storage) (url data options : JsVal)
    (outcome : TransportOutcome) : Storage × List Effect :=
  self.request storage
    (verbOptions "POST" url (defaultArg data (.obj [])) (defaultArg options (.obj []))) outcome

/-- The method `put(url, data = {}, options = {})`. -/
def Request.put (self : Request) (storage : Storage) (url data options : JsVal)
    (outcome : TransportOutcome) : Storage × List Effect :=
  self.request storage
    (verbOptions "PUT" url (defaultArg data (.obj [])) (defaultArg options (.obj []))) outcome

/-- The method `delete(url, data = {}, options = {})`. -/
def Request.delete (self : Request) (storage : Storage) (url data options : JsVal)
    (outcome : TransportOutcome) : Storage × List Effect :=
  self.request storage
    (verbOptions "DELETE" url (defaultArg data (.obj [])) (defaultArg options (.obj []))) outcome

/-- The state of a promise once the effects of a call have run. -/
inductive PromiseState where
  | pending
  | resolved (value : JsVal)
  | rejected (reason : JsError)

/-- The state of the promise `request` returns: the first call of `resolve` or
`reject` settles it, and it stays pending when neither is called. -/
def Effect.settle : List Effect → PromiseState
  | [] => .pending
  | .resolve v :: _ => .resolved v
  | .reject e :: _ => .rejected e
  | _ :: rest => settle rest

/-! ## `frontend/shop/src/api/request.js` -/

namespace Shop

/-- The browser's `localStorage`: strings under string keys. -/
abbrev LocalStorage := List (String × String)

/-- The call `localStorage.getItem(key)`: the stored string, or `null`. -/
def getItem (store : LocalStorage) (key : String) : JsVal :=
  match store.lookup key with
  | some s => .str s
  | none => .null

/-- The request configuration an axios request interceptor receives: its
`headers` object and its other properties. -/
structure AxiosConfig where
  headers : List (String × JsVal)
  others : List (String × JsVal)

/-- The response object an axios response interceptor receives. -/
structure AxiosResponse where
  data : JsVal

/-- What an interceptor hands to the promise chain: a returned value, or a
rejection (from `Promise.reject` or from an exception thrown in the handler). -/
inductive Handled (α : Type) where
  | returned (value : α)
  | rejected (reason : JsError)

/-- The request interceptor. -/
def requestInterceptor (store : LocalStorage) (config : AxiosConfig) : AxiosConfig :=
  let token := getItem store "token"
  if token.truthy then
    ⟨config.headers ++ [("Authorization", JsVal.str ("Bearer " ++ token.toStr))], config.others⟩
  else
    config

/-- The response interceptor's success handler: the value handed on, the
`localStorage` afterwards and the effects. -/
def responseInterceptor (store : LocalStorage) (response : AxiosResponse) :
    Handled JsVal × LocalStorage × List Effect :=
  let res := response.data
  match res.getProp "code" with
  | .error e => (.rejected e, store, [])
  | .ok code =>
    if code.isNum 200 || !code.isDefined then
      (.returned res, store, [])
    else
      match res.getProp "message" with
      | .error e => (.rejected e, store, [])
      | .ok message =>
        (.rejected (mkError (message.or (.str "Error"))), store,
          [.consoleError "API error:" (message.or (.str "Error"))])

end Shop

/-! ## `frontend/shop/src/router/index.js` -/

namespace Shop

/-- The observable actions of the navigation guard, in order. -/
inductive GuardEffect where
  /-- The assignment `document.title = title`. -/
  | setTitle (title : String)
  /-- The call `next()` (no argument) or `next(location)`. -/
  | next (arg : Option JsVal)

/-- The arguments `next` was called with, in order. -/
def GuardEffect.nexts : List GuardEffect → List (Option JsVal)
  | [] => []
  | .next arg :: rest => arg :: nexts rest
  | _ :: rest => nexts rest

/-- The array `requiresAuth` of the guard. -/
def requiresAuth : List String :=
  ["Cart", "Checkout", "User", "UserProfile", "UserOrders", "UserAddress", "UserFavorites",
    "OrderDetail"]

/-- The call `requiresAuth.includes(name)`: only a string can equal an element
of the array. -/
def requiresAuthIncludes (name : JsVal) : Bool :=
  match name with
  | .str s => requiresAuth.contains s
  | _ => false

/-- The guard registered with `router.beforeEach`, for the target route `to`
(`toRoute` here);
`from` is not read. Reading `to.meta.title` throws when `to` or `to.meta` is
`undefined` or `null`. -/
def beforeEach (store : LocalStorage) (toRoute : JsVal) : Except JsError (List GuardEffect) := do
  let routeMeta ← toRoute.getProp "meta"
  let title ← routeMeta.getProp "title"
  let documentTitle := if title.truthy then title.toStr ++ " - 商城" else "商城"
  let name ← toRoute.getProp "name"
  if requiresAuthIncludes name then
    let token := getItem store "token"
    if !token.truthy then
      let fullPath ← toRoute.getProp "fullPath"
      return [.setTitle documentTitle,
        .next (some (.obj [("path", .str "/login"),
          ("query", .obj [("redirect", fullPath)])]))]
  return [.setTitle documentTitle, .next none]

end Shop

/-! ## `services/address/address.js` -/

/-- The characters `String.prototype.trim` removes: the white space and line
terminator code points of the language. -/
def isJsWhiteSpace (c : Char) : Bool :=
  c.toNat == 9 || c.toNat == 10 || c.toNat == 11 || c.toNat == 12 || c.toNat == 13 ||
  c.toNat == 32 || c.toNat == 160 || c.toNat == 5760 ||
  (8192 ≤ c.toNat && c.toNat ≤ 8202) ||
  c.toNat == 8232 || c.toNat == 8233 || c.toNat == 8239 || c.toNat == 8287 ||
  c.toNat == 12288 || c.toNat == 65279

/-- The method `String.prototype.trim`. -/
def jsTrim (s : String) : String :=
  String.mk (((s.data.dropWhile isJsWhiteSpace).reverse.dropWhile isJsWhiteSpace).reverse)

/-- The test `/^1[3-9]\d{9}$/.test(s)` on a string: a `1`, a digit from `3` to
`9`, then nine decimal digits, and nothing else. -/
def isPhoneNumber (s : String) : Bool :=
  match s.data with
  | c1 :: c2 :: rest =>
    c1.toNat == 49 && (51 ≤ c2.toNat && c2.toNat ≤ 57) && rest.length == 9 &&
      rest.all fun c => 48 ≤ c.toNat && c.toNat ≤ 57
  | _ => false

/-- The condition `!v || v.trim() === ''` of the text fields. A truthy value
that is not a string has no `trim` method, and the call throws. -/
def blankField (v : JsVal) : Except JsError Bool :=
  if !v.truthy then
    .ok true
  else
    match v with
    | .str s => .ok (jsTrim s == "")
    | _ => .error .typeError

/-- The condition `!v || !/^1[3-9]\d{9}$/.test(v)` of the phone field; `test`
converts its argument to a string. -/
def badPhone (v : JsVal) : Bool :=
  !v.truthy || !isPhoneNumber v.toStr

/-- The statement `if (cond) errors.push(message)`. -/
def pushIf (cond : Bool) (message : String) (errors : List String) : List String :=
  if cond then errors ++ [message] else errors

/-- The array `errors` that `validateAddress` builds. -/
def addressErrors (address : JsVal) : Except JsError (List String) := do
  let errors := []
  let name ← address.getProp "receiver_name"
  let errors := pushIf (← blankField name) "请输入收货人姓名" errors
  let phone ← address.getProp "phone"
  let errors := pushIf (badPhone phone) "请输入正确的手机号码" errors
  let province ← address.getProp "province"
  let errors := pushIf (← blankField province) "请选择省份" errors
  let city ← address.getProp "city"
  let errors := pushIf (← blankField city) "请选择城市" errors
  let district ← address.getProp "district"
  let errors := pushIf (← blankField district) "请选择区县" errors
  let detail ← address.getProp "detail"
  let errors := pushIf (← blankField detail) "请输入详细地址" errors
  return errors

/-- The function `validateAddress(address)`. -/
def validateAddress (address : JsVal) : Except JsError JsVal :=
  match addressErrors address with
  | .error e => .error e
  | .ok errors =>
    .ok (.obj [("isValid", .bool (errors.length == 0)),
      ("errors", .arr (errors.map JsVal.str))])

/-- The claim's words for a text field that passes: a string that is not empty
after trimming. -/
def Spec.nonBlank (v : JsVal) : Bool :=
  match v with
  | .str s => jsTrim s != ""
  | _ => false

/-- The claim's words for a phone that passes: a string of 11 characters that
matches the pattern. -/
def Spec.validPhone (v : JsVal) : Bool :=
  match v with
  | .str s => s.length == 11 && isPhoneNumber s
  | _ => false

/-- The claim's words for the errors: one message per failing field, in the
order name, phone, province, city, district, detail. -/
def Spec.addressErrors (name phone province city district detail : JsVal) : List String :=
  (if Spec.nonBlank name then [] else ["请输入收货人姓名"]) ++
  (if Spec.validPhone phone then [] else ["请输入正确的手机号码"]) ++
  (if Spec.nonBlank province then [] else ["请选择省份"]) ++
  (if Spec.nonBlank city then [] else ["请选择城市"]) ++
  (if Spec.nonBlank district then [] else ["请选择区县"]) ++
  (if Spec.nonBlank detail then [] else ["请输入详细地址"])

/-! ## `services/home/home.js` -/

/-- The tab `{text: category.name, key: category.id}` pushed for a category;
the reads throw when the category is `undefined` or `null`. -/
def categoryTab (category : JsVal) : Except JsError JsVal :=
  match category.getProp "name", category.getProp "id" with
  | .ok name, .ok id => .ok (.obj [("text", name), ("key", id)])
  | .error e, _ => .error e
  | _, .error e => .error e

/-- The `forEach` that pushes one tab per category, in order; it stops at the
first exception. -/
def categoryTabs : List JsVal → Except JsError (List JsVal)
  | [] => .ok []
  | category :: rest =>
    match categoryTab category with
    | .error e => .error e
    | .ok tab =>
      match categoryTabs rest with
      | .error e => .error e
      | .ok tabs => .ok (tab :: tabs)

/-- The tab every list starts with, `{text: '精选推荐', key: 0}`. -/
def featuredTab : JsVal :=
  .obj [("text", .str "精选推荐"), ("key", .num 0)]

/-- The `then` handler of `fetchCategories`: `categories.slice(0, 5)` followed
by `forEach` exists for an array only; any other value throws. -/
def tabListOf (categories : JsVal) : Except JsError JsVal :=
  match categories with
  | .arr items =>
    match categoryTabs (items.take 5) with
    | .error e => .error e
    | .ok tabs => .ok (.arr (featuredTab :: tabs))
  | _ => .error .typeError

/-- The function `fetchCategories()`, run to the end of the transport's
callback: the storage, the effects and the state of the promise it returns. An
exception in the `then` handler and a rejection of the request both reach the
`catch` handler. -/
def fetchCategories (self : Request) (storage : Storage) (outcome : TransportOutcome) :
    Storage × List Effect × PromiseState :=
  let r := self.get storage (.str "/api/v1/products/categories") .undefined .undefined outcome
  match Effect.settle r.2 with
  | .pending => (r.1, r.2, .pending)
  | .resolved categories =>
    match tabListOf categories with
    | .ok tabList => (r.1, r.2, .resolved tabList)
    | .error e =>
      (r.1, r.2 ++ [.consoleErrorCaught "获取分类失败:" e], .resolved (.arr [featuredTab]))
  | .rejected e =>
    (r.1, r.2 ++ [.consoleErrorCaught "获取分类失败:" e], .resolved (.arr [featuredTab]))

/-! ## `services/good/fetchGoods.js` -/

/-- The object `params` of `fetchGoodsList(pageIndex = 1, pageSize = 20,
categoryId = 0, keyword = '')`: `page` and `limit`, then `category_id` and
`keyword` when they are truthy. -/
def goodsParams (pageIndex pageSize categoryId keyword : JsVal) : JsVal :=
  let params := [("page", defaultArg pageIndex (.num 1)), ("limit", defaultArg pageSize (.num 20))]
  let params :=
    if (defaultArg categoryId (.num 0)).truthy then
      params ++ [("category_id", defaultArg categoryId (.num 0))]
    else params
  let params :=
    if (defaultArg keyword (.str "")).truthy then
      params ++ [("keyword", defaultArg keyword (.str ""))]
    else params
  .obj params

/-- The object literal built for one product, from the values read off the
item. -/
def goodsEntry (id mainImage name price subTitle : JsVal) : JsVal :=
  .obj [("spuId", id),
    ("thumb", mainImage),
    ("title", name),
    ("price", price),
    ("originPrice", price),
    ("tags", if subTitle.truthy then .arr [subTitle] else .arr []),
    ("etitle", subTitle.or (.str ""))]

/-- The callback of `list.map`; the reads throw when the item is `undefined` or
`null`. -/
def goodsItem (item : JsVal) : Except JsError JsVal := do
  let id ← item.getProp "id"
  let mainImage ← item.getProp "main_image"
  let name ← item.getProp "name"
  let price ← item.getProp "price"
  let subTitle ← item.getProp "sub_title"
  return goodsEntry id mainImage name price subTitle

/-- The call `list.map(...)` on the elements of the array, in order; it stops
at the first exception. -/
def mapGoods : List JsVal → Except JsError (List JsVal)
  | [] => .ok []
  | item :: rest =>
    match goodsItem item with
    | .error e => .error e
    | .ok entry =>
      match mapGoods rest with
      | .error e => .error e
      | .ok entries => .ok (entry :: entries)

/-- The value `response.data || response.list || []`. -/
def goodsSource (response : JsVal) : Except JsError JsVal :=
  match response.getProp "data" with
  | .error e => .error e
  | .ok data =>
    if data.truthy then
      .ok data
    else
      match response.getProp "list" with
      | .error e => .error e
      | .ok list => .ok (list.or (.arr []))

/-- The `then` handler of `fetchGoodsList`; `list.map` exists for an array
only, and any other value throws. -/
def goodsListHandler (response : JsVal) : Except JsError JsVal :=
  match goodsSource response with
  | .error e => .error e
  | .ok (.arr items) =>
    match mapGoods items with
    | .error e => .error e
    | .ok entries => .ok (.arr entries)
  | .ok _ => .error .typeError

/-- The function `fetchGoodsList(pageIndex, pageSize, categoryId, keyword)`,
run to the end of the transport's callback: the storage, the effects and the
state of the promise it returns. An exception in the `then` handler and a
rejection of the request both reach the `catch` handler. -/
def fetchGoodsList (self : Request) (storage : Storage)
    (pageIndex pageSize categoryId keyword : JsVal) (outcome : TransportOutcome) :
    Storage × List Effect × PromiseState :=
  let r := self.get storage (.str "/api/v1/products")
    (goodsParams pageIndex pageSize categoryId keyword) .undefined outcome
  match Effect.settle r.2 with
  | .pending => (r.1, r.2, .pending)
  | .resolved response =>
    match goodsListHandler response with
    | .ok list => (r.1, r.2, .resolved list)
    | .error e =>
      (r.1, r.2 ++ [.consoleErrorCaught "获取商品列表失败:" e], .resolved (.arr []))
  | .rejected e =>
    (r.1, r.2 ++ [.consoleErrorCaught "获取商品列表失败:" e], .resolved (.arr []))

/-! ## Auxiliary facts -/

theorem JsVal.isDefined_of_ne {d : JsVal} (h : d ≠ .undefined) : d.isDefined = true := by
  cases d <;> simp_all [JsVal.isDefined]

theorem JsVal.isNum_eq_true {c : JsVal} {n : Int} : c.isNum n = true ↔ c = .num n := by
  cases c <;> simp [JsVal.isNum]

theorem JsVal.isNum_of_ne {c : JsVal} {n : Int} (h : c ≠ .num n) : c.isNum n = false := by
  cases c <;> simp_all [JsVal.isNum]

theorem request_of_built {self : Request} {storage : Storage} {options : JsVal}
    {req : WxRequest} (h : self.buildRequest storage options = .ok req)
    (outcome : TransportOutcome) :
    self.request storage options outcome =
      ((match outcome with
          | .success res => onSuccess storage res
          | .fail err => onFail storage err).1,
        .wxRequest req ::
          (match outcome with
            | .success res => onSuccess storage res
            | .fail err => onFail storage err).2) := by
  simp [Request.request, h]

theorem entry_removeStorageSync_self (storage : Storage) (k : String) :
    Storage.entry (removeStorageSync storage k) k = none := by
  induction storage with
  | nil => rfl
  | cons p rest ih =>
    obtain ⟨a, b⟩ := p
    by_cases h : a = k
    · simpa [removeStorageSync, Storage.entry, List.filter_cons, h] using ih
    · have hk : (k == a) = false := by simpa using fun e => h e.symm
      simpa [removeStorageSync, Storage.entry, List.filter_cons, h, List.lookup_cons, hk] using ih

theorem entry_removeStorageSync_of_ne (storage : Storage) {k j : String} (h : j ≠ k) :
    Storage.entry (removeStorageSync storage k) j = Storage.entry storage j := by
  induction storage with
  | nil => rfl
  | cons p rest ih =>
    obtain ⟨a, b⟩ := p
    by_cases ha : a = k
    · subst ha
      have hj : (j == a) = false := by simpa using h
      simpa [removeStorageSync, Storage.entry, List.filter_cons, List.lookup_cons, hj] using ih
    · by_cases hja : j = a
      · simp [removeStorageSync, Storage.entry, List.filter_cons, ha, List.lookup_cons, hja]
      · have hj : (j == a) = false := by simpa using hja
        simpa [removeStorageSync, Storage.entry, List.filter_cons, ha, List.lookup_cons, hj]
          using ih

/-! ## The mini-program client: response classification -/

/-- C1: a transport success with status 200 whose envelope has code 200 and a
data field (a value other than `undefined`, which a decoded body cannot hold)
makes `request` resolve with exactly that value, without any rejection. -/
theorem request_resolves_with_data_field (self : Request) (storage : Storage)
    (options : JsVal) (req : WxRequest) (res : WxResponse) (d : JsVal)
    (hreq : self.buildRequest storage options = .ok req)
    (hstatus : res.statusCode = 200)
    (hcode : res.data.getProp "code" = .ok (.num 200))
    (hdata : res.data.getProp "data" = .ok d) (hd : d ≠ .undefined) :
    Effect.resolved (self.request storage options (.success res)).2 = [d] ∧
      Effect.rejected (self.request storage options (.success res)).2 = [] := by
  have hdef := JsVal.isDefined_of_ne hd
  simp [request_of_built hreq, onSuccess, hstatus, hcode, hdata, hdef, JsVal.isNum,
    Effect.resolved, Effect.rejected]

/-- The scenario of C1: the envelope with code 200 and data `[{id: 1}]`
resolves to `[{id: 1}]`. -/
theorem request_resolves_with_data_field_witness :
    Effect.resolved
        ((Request.new "https://mall.example").request []
          (.obj [("url", .str "/api/v1/orders"), ("method", .str "GET")])
          (.success ⟨200, .obj [("code", .num 200),
            ("data", .arr [.obj [("id", .num 1)]])]⟩)).2
        = [.arr [.obj [("id", .num 1)]]] ∧
      Effect.rejected
        ((Request.new "https://mall.example").request []
          (.obj [("url", .str "/api/v1/orders"), ("method", .str "GET")])
          (.success ⟨200, .obj [("code", .num 200),
            ("data", .arr [.obj [("id", .num 1)]])]⟩)).2
        = [] :=
  request_resolves_with_data_field (Request.new "https://mall.example") []
    (.obj [("url", .str "/api/v1/orders"), ("method", .str "GET")])
    ⟨"https://mall.example/api/v1/orders", .str "GET", .obj [],
      [("Content-Type", .str "application/json")], 10000⟩
    ⟨200, .obj [("code", .num 200), ("data", .arr [.obj [("id", .num 1)]])]⟩
    (.arr [.obj [("id", .num 1)]]) rfl rfl rfl rfl (by simp)

/-- C2: a transport success with status 200 whose envelope has code 200 and
no data field makes `request` resolve with the whole envelope `res.data`,
unchanged, without any rejection. -/
theorem request_resolves_with_envelope (self : Request) (storage : Storage)
    (options : JsVal) (req : WxRequest) (res : WxResponse)
    (hreq : self.buildRequest storage options = .ok req)
    (hstatus : res.statusCode = 200)
    (hcode : res.data.getProp "code" = .ok (.num 200))
    (hdata : res.data.getProp "data" = .ok .undefined) :
    Effect.resolved (self.request storage options (.success res)).2 = [res.data] ∧
      Effect.rejected (self.request storage options (.success res)).2 = [] := by
  simp [request_of_built hreq, onSuccess, hstatus, hcode, hdata, JsVal.isNum,
    JsVal.isDefined, Effect.resolved, Effect.rejected]

/-- An instance of C2: the envelope with code 200 and a `list` field only
resolves to the envelope itself. -/
theorem request_resolves_with_envelope_witness :
    Effect.resolved
        ((Request.new "https://mall.example").request []
          (.obj [("url", .str "/api/v1/products")])
          (.success ⟨200, .obj [("code", .num 200), ("list", .arr [.num 7])]⟩)).2
        = [.obj [("code", .num 200), ("list", .arr [.num 7])]] ∧
      Effect.rejected
        ((Request.new "https://mall.example").request []
          (.obj [("url", .str "/api/v1/products")])
          (.success ⟨200, .obj [("code", .num 200), ("list", .arr [.num 7])]⟩)).2
        = [] :=
  request_resolves_with_envelope (Request.new "https://mall.example") []
    (.obj [("url", .str "/api/v1/products")])
    ⟨"https://mall.example/api/v1/products", .str "GET", .obj [],
      [("Content-Type", .str "application/json")], 10000⟩
    ⟨200, .obj [("code", .num 200), ("list", .arr [.num 7])]⟩ rfl rfl rfl rfl

/-- C3: a response with status 200 and envelope code 401 removes the storage
entries `token` and `userInfo` (and only those), switches to
`/pages/user/index` exactly once, shows the toast `请重新登录`, and rejects
with `Error('未授权')` without ever resolving. -/
theorem request_unauthorized (self : Request) (storage : Storage)
    (options : JsVal) (req : WxRequest) (res : WxResponse)
    (hreq : self.buildRequest storage options = .ok req)
    (hstatus : res.statusCode = 200)
    (hcode : res.data.getProp "code" = .ok (.num 401)) :
    Storage.entry (self.request storage options (.success res)).1 "token" = none ∧
      Storage.entry (self.request storage options (.success res)).1 "userInfo" = none ∧
      (∀ k, k ≠ "token" → k ≠ "userInfo" →
        Storage.entry (self.request storage options (.success res)).1 k
          = Storage.entry storage k) ∧
      Effect.removals (self.request storage options (.success res)).2
        = ["token", "userInfo"] ∧
      Effect.redirects (self.request storage options (.success res)).2
        = ["/pages/user/index"] ∧
      Effect.toasts (self.request storage options (.success res)).2
        = [(.str "请重新登录", "none")] ∧
      Effect.rejected (self.request storage options (.success res)).2
        = [.error "未授权"] ∧
      Effect.resolved (self.request storage options (.success res)).2 = [] := by
  have hout : self.request storage options (.success res) =
      (removeStorageSync (removeStorageSync storage "token") "userInfo",
        [.wxRequest req, .removeStorage "token", .removeStorage "userInfo",
          .showToast (.str "请重新登录") "none", .switchTab "/pages/user/index",
          .reject (.error "未授权")]) := by
    simp [request_of_built hreq, onSuccess, hstatus, hcode, JsVal.isNum, mkError, JsVal.toStr]
  rw [hout]
  refine ⟨?_, ?_, ?_, rfl, rfl, rfl, rfl, rfl⟩
  · rw [entry_removeStorageSync_of_ne _ (by decide), entry_removeStorageSync_self]
  · exact entry_removeStorageSync_self _ _
  · intro k h1 h2
    rw [entry_removeStorageSync_of_ne _ h2, entry_removeStorageSync_of_ne _ h1]

/-- The scenario of C3: `PUT /api/v1/orders/5/cancel` answered with the
envelope of code 401, with a token, a profile and one more entry stored. -/
theorem request_unauthorized_witness :
    Storage.entry
        ((Request.new "https://mall.example").request
          [("token", .str "t0"), ("userInfo", .obj [("id", .num 3)]), ("theme", .str "dark")]
          (.obj [("url", .str "/api/v1/orders/5/cancel"), ("method", .str "PUT")])
          (.success ⟨200, .obj [("code", .num 401)]⟩)).1 "token" = none ∧
      Effect.redirects
        ((Request.new "https://mall.example").request
          [("token", .str "t0"), ("userInfo", .obj [("id", .num 3)]), ("theme", .str "dark")]
          (.obj [("url", .str "/api/v1/orders/5/cancel"), ("method", .str "PUT")])
          (.success ⟨200, .obj [("code", .num 401)]⟩)).2 = ["/pages/user/index"] ∧
      Effect.rejected
        ((Request.new "https://mall.example").request
          [("token", .str "t0"), ("userInfo", .obj [("id", .num 3)]), ("theme", .str "dark")]
          (.obj [("url", .str "/api/v1/orders/5/cancel"), ("method", .str "PUT")])
          (.success ⟨200, .obj [("code", .num 401)]⟩)).2 = [.error "未授权"] :=
  have h := request_unauthorized (Request.new "https://mall.example")
    [("token", .str "t0"), ("userInfo", .obj [("id", .num 3)]), ("theme", .str "dark")]
    (.obj [("url", .str "/api/v1/orders/5/cancel"), ("method", .str "PUT")])
    ⟨"https://mall.example/api/v1/orders/5/cancel", .str "PUT", .obj [],
      [("Content-Type", .str "application/json"), ("Authorization", .str "Bearer t0")], 10000⟩
    ⟨200, .obj [("code", .num 401)]⟩ rfl rfl rfl
  ⟨h.1, h.2.2.2.2.1, h.2.2.2.2.2.2.1⟩

/-- The else-branch of the classification: status 200 and a code that is
neither 200 nor 401 leave the storage alone, show one toast and reject. -/
theorem request_other_code {self : Request} {storage : Storage} {options : JsVal}
    {req : WxRequest} {res : WxResponse} {c m : JsVal}
    (hreq : self.buildRequest storage options = .ok req)
    (hstatus : res.statusCode = 200)
    (hcode : res.data.getProp "code" = .ok c)
    (h200 : c ≠ .num 200) (h401 : c ≠ .num 401)
    (hmsg : res.data.getProp "message" = .ok m) :
    self.request storage options (.success res) =
      (storage,
        [.wxRequest req, .showToast (m.or (.str "请求失败")) "none",
          .reject (mkError (m.or (.str "请求失败")))]) := by
  simp [request_of_built hreq, onSuccess, hstatus, hcode, hmsg, JsVal.isNum_of_ne h200,
    JsVal.isNum_of_ne h401]

/-- C4, as stated, fails: the envelope `{code: 500, message: ''}` has a message
field, yet the call rejects with the fallback `请求失败`, not with the field's
contents. -/
theorem request_application_error_counterexample :
    JsVal.lookupProp "message" [("code", .num 500), ("message", .str "")] = some (.str "") ∧
      Effect.rejected
        ((Request.new "https://mall.example").request []
          (.obj [("url", .str "/api/v1/cart"), ("method", .str "POST")])
          (.success ⟨200, .obj [("code", .num 500), ("message", .str "")]⟩)).2
        = [.error "请求失败"] ∧
      Effect.rejected
        ((Request.new "https://mall.example").request []
          (.obj [("url", .str "/api/v1/cart"), ("method", .str "POST")])
          (.success ⟨200, .obj [("code", .num 500), ("message", .str "")]⟩)).2
        ≠ [.error ""] := by
  refine ⟨rfl, rfl, ?_⟩
  decide

/-- C4, amended: for status 200 and a code that is neither 200 nor 401, the
toast title is `message || '请求失败'` and the call rejects with
`new Error(message || '请求失败')`, never resolving. So a message that is a
non-empty string is both the rejection message and the toast title, and a
message that is absent or falsy (the empty string included) gives the fallback
`请求失败` for both. -/
theorem request_application_error (self : Request) (storage : Storage)
    (options : JsVal) (req : WxRequest) (res : WxResponse) (c m : JsVal)
    (hreq : self.buildRequest storage options = .ok req)
    (hstatus : res.statusCode = 200)
    (hcode : res.data.getProp "code" = .ok c)
    (h200 : c ≠ .num 200) (h401 : c ≠ .num 401)
    (hmsg : res.data.getProp "message" = .ok m) :
    Effect.toasts (self.request storage options (.success res)).2
        = [(m.or (.str "请求失败"), "none")] ∧
      Effect.rejected (self.request storage options (.success res)).2
        = [mkError (m.or (.str "请求失败"))] ∧
      Effect.resolved (self.request storage options (.success res)).2 = [] ∧
      (∀ s, m = .str s → s ≠ "" →
        Effect.rejected (self.request storage options (.success res)).2 = [.error s] ∧
          Effect.toasts (self.request storage options (.success res)).2
            = [(.str s, "none")]) ∧
      (m.truthy = false →
        Effect.rejected (self.request storage options (.success res)).2
            = [.error "请求失败"] ∧
          Effect.toasts (self.request storage options (.success res)).2
            = [(.str "请求失败", "none")]) := by
  rw [request_other_code hreq hstatus hcode h200 h401 hmsg]
  refine ⟨rfl, rfl, rfl, ?_, ?_⟩
  · intro s hs hne
    subst hs
    simp [Effect.rejected, Effect.toasts, JsVal.or, JsVal.truthy, hne, mkError, JsVal.toStr]
  · intro hf
    simp [Effect.rejected, Effect.toasts, JsVal.or, hf, mkError, JsVal.toStr]

/-- The scenario of C4: `POST /api/v1/cart` answered with
`{code: 500, message: '库存不足'}` rejects with the message `库存不足`, which is
also the toast title. -/
theorem request_application_error_witness :
    Effect.rejected
        ((Request.new "https://mall.example").request []
          (.obj [("url", .str "/api/v1/cart"), ("method", .str "POST")])
          (.success ⟨200, .obj [("code", .num 500), ("message", .str "库存不足")]⟩)).2
        = [.error "库存不足"] ∧
      Effect.toasts
        ((Request.new "https://mall.example").request []
          (.obj [("url", .str "/api/v1/cart"), ("method", .str "POST")])
          (.success ⟨200, .obj [("code", .num 500), ("message", .str "库存不足")]⟩)).2
        = [(.str "库存不足", "none")] :=
  (request_application_error (Request.new "https://mall.example") []
    (.obj [("url", .str "/api/v1/cart"), ("method", .str "POST")])
    ⟨"https://mall.example/api/v1/cart", .str "POST", .obj [],
      [("Content-Type", .str "application/json")], 10000⟩
    ⟨200, .obj [("code", .num 500), ("message", .str "库存不足")]⟩
    (.num 500) (.str "库存不足") rfl rfl rfl (by simp) (by simp) rfl).2.2.2.1
    "库存不足" rfl (by decide)

/-- C5: when the transport fails, whatever the error object, the call rejects
with `Error('网络连接失败')`, shows exactly one toast, never resolves, leaves
the storage as it was, removes no entry and triggers no redirect. -/
theorem request_transport_failure (self : Request) (storage : Storage)
    (options : JsVal) (req : WxRequest) (err : JsVal)
    (hreq : self.buildRequest storage options = .ok req) :
    Effect.rejected (self.request storage options (.fail err)).2
        = [.error "网络连接失败"] ∧
      Effect.toasts (self.request storage options (.fail err)).2
        = [(.str "网络连接失败", "none")] ∧
      Effect.resolved (self.request storage options (.fail err)).2 = [] ∧
      (self.request storage options (.fail err)).1 = storage ∧
      Effect.removals (self.request storage options (.fail err)).2 = [] ∧
      Effect.redirects (self.request storage options (.fail err)).2 = [] := by
  rw [request_of_built hreq]
  exact ⟨rfl, rfl, rfl, rfl, rfl, rfl⟩

/-- An instance of C5: a timeout while a token and a profile are stored. -/
theorem request_transport_failure_witness :
    Effect.rejected
        ((Request.new "https://mall.example").request
          [("token", .str "t0"), ("userInfo", .obj [("id", .num 3)])]
          (.obj [("url", .str "/api/v1/orders")])
          (.fail (.obj [("errMsg", .str "request:fail timeout")]))).2
        = [.error "网络连接失败"] ∧
      ((Request.new "https://mall.example").request
          [("token", .str "t0"), ("userInfo", .obj [("id", .num 3)])]
          (.obj [("url", .str "/api/v1/orders")])
          (.fail (.obj [("errMsg", .str "request:fail timeout")]))).1
        = [("token", .str "t0"), ("userInfo", .obj [("id", .num 3)])] :=
  have h := request_transport_failure (Request.new "https://mall.example")
    [("token", .str "t0"), ("userInfo", .obj [("id", .num 3)])]
    (.obj [("url", .str "/api/v1/orders")])
    ⟨"https://mall.example/api/v1/orders", .str "GET", .obj [],
      [("Content-Type", .str "application/json"), ("Authorization", .str "Bearer t0")], 10000⟩
    (.obj [("errMsg", .str "request:fail timeout")]) rfl
  ⟨h.1, h.2.2.2.1⟩

/-- C6: a transport success whose status is not 200 rejects with
`Error('网络错误')` and shows the toast `网络错误` whatever the body: nothing is
resolved, the storage is left as it was, no entry is removed and no redirect is
triggered, also for a body of code 200 or 401. -/
theorem request_bad_status (self : Request) (storage : Storage)
    (options : JsVal) (req : WxRequest) (res : WxResponse)
    (hreq : self.buildRequest storage options = .ok req)
    (hstatus : res.statusCode ≠ 200) :
    Effect.rejected (self.request storage options (.success res)).2
        = [.error "网络错误"] ∧
      Effect.toasts (self.request storage options (.success res)).2
        = [(.str "网络错误", "none")] ∧
      Effect.resolved (self.request storage options (.success res)).2 = [] ∧
      (self.request storage options (.success res)).1 = storage ∧
      Effect.removals (self.request storage options (.success res)).2 = [] ∧
      Effect.redirects (self.request storage options (.success res)).2 = [] := by
  have hout : self.request storage options (.success res) =
      (storage, [.wxRequest req, .showToast (.str "网络错误") "none",
        .reject (.error "网络错误")]) := by
    simp [request_of_built hreq, onSuccess, hstatus, mkError, JsVal.toStr]
  rw [hout]
  exact ⟨rfl, rfl, rfl, rfl, rfl, rfl⟩

/-- An instance of C6: status 500 with a body of code 401 keeps the stored
token and rejects with the network error. -/
theorem request_bad_status_witness :
    Effect.rejected
        ((Request.new "https://mall.example").request [("token", .str "t0")]
          (.obj [("url", .str "/api/v1/orders")])
          (.success ⟨500, .obj [("code", .num 401)]⟩)).2
        = [.error "网络错误"] ∧
      ((Request.new "https://mall.example").request [("token", .str "t0")]
          (.obj [("url", .str "/api/v1/orders")])
          (.success ⟨500, .obj [("code", .num 401)]⟩)).1
        = [("token", .str "t0")] ∧
      Effect.redirects
        ((Request.new "https://mall.example").request [("token", .str "t0")]
          (.obj [("url", .str "/api/v1/orders")])
          (.success ⟨500, .obj [("code", .num 401)]⟩)).2
        = [] :=
  have h := request_bad_status (Request.new "https://mall.example") [("token", .str "t0")]
    (.obj [("url", .str "/api/v1/orders")])
    ⟨"https://mall.example/api/v1/orders", .str "GET", .obj [],
      [("Content-Type", .str "application/json"), ("Authorization", .str "Bearer t0")], 10000⟩
    ⟨500, .obj [("code", .num 401)]⟩ rfl (by decide)
  ⟨h.1, h.2.2.2.1, h.2.2.2.2.2⟩

/-- C7, as stated, fails: the envelope `{data: [1]}` has no code field and
arrives with status 200, yet the call does not resolve: it rejects with
`Error('请求失败')`. -/
theorem request_absent_code_counterexample :
    JsVal.lookupProp "code" [("data", .arr [.num 1])] = none ∧
      Effect.resolved
        ((Request.new "https://mall.example").request []
          (.obj [("url", .str "/api/v1/products")])
          (.success ⟨200, .obj [("data", .arr [.num 1])]⟩)).2
        = [] ∧
      Effect.rejected
        ((Request.new "https://mall.example").request []
          (.obj [("url", .str "/api/v1/products")])
          (.success ⟨200, .obj [("data", .arr [.num 1])]⟩)).2
        = [.error "请求失败"] :=
  ⟨rfl, rfl, rfl⟩

/-- C7, amended: a response with status 200 whose envelope has no code field
is not a success for `request`: it is handled like any code other than 200 and
401. Nothing is resolved, one toast `message || '请求失败'` is shown, the call
rejects with `new Error(message || '请求失败')`, and the storage is left as it
was, with no redirect. -/
theorem request_absent_code (self : Request) (storage : Storage)
    (options : JsVal) (req : WxRequest) (res : WxResponse) (m : JsVal)
    (hreq : self.buildRequest storage options = .ok req)
    (hstatus : res.statusCode = 200)
    (hcode : res.data.getProp "code" = .ok .undefined)
    (hmsg : res.data.getProp "message" = .ok m) :
    Effect.resolved (self.request storage options (.success res)).2 = [] ∧
      Effect.rejected (self.request storage options (.success res)).2
        = [mkError (m.or (.str "请求失败"))] ∧
      Effect.toasts (self.request storage options (.success res)).2
        = [(m.or (.str "请求失败"), "none")] ∧
      (self.request storage options (.success res)).1 = storage ∧
      Effect.redirects (self.request storage options (.success res)).2 = [] := by
  rw [request_other_code hreq hstatus hcode (by simp) (by simp) hmsg]
  exact ⟨rfl, rfl, rfl, rfl, rfl⟩

/-- An instance of the amended C7: the envelope `{data: [1]}` with status 200
is rejected with the fallback message. -/
theorem request_absent_code_witness :
    Effect.resolved
        ((Request.new "https://mall.example").request []
          (.obj [("url", .str "/api/v1/products")])
          (.success ⟨200, .obj [("data", .arr [.num 1])]⟩)).2
        = [] ∧
      Effect.rejected
        ((Request.new "https://mall.example").request []
          (.obj [("url", .str "/api/v1/products")])
          (.success ⟨200, .obj [("data", .arr [.num 1])]⟩)).2
        = [mkError (JsVal.or .undefined (.str "请求失败"))] :=
  have h := request_absent_code (Request.new "https://mall.example") []
    (.obj [("url", .str "/api/v1/products")])
    ⟨"https://mall.example/api/v1/products", .str "GET", .obj [],
      [("Content-Type", .str "application/json")], 10000⟩
    ⟨200, .obj [("data", .arr [.num 1])]⟩ .undefined rfl rfl rfl rfl
  ⟨h.1, h.2.1⟩

/-! ## The shop storefront client: response interceptor -/

/-- C8: for an envelope `response.data` whose code reads as `c`, the response
interceptor returns the envelope itself (not its data field) if and only if
`c` is 200 or `undefined`; for every other code, 401 included, it rejects with
`new Error(res.message || 'Error')`; and it never changes `localStorage`. -/
theorem shop_response_interceptor (store : Shop.LocalStorage)
    (response : Shop.AxiosResponse) (c m : JsVal)
    (hcode : response.data.getProp "code" = .ok c)
    (hmsg : response.data.getProp "message" = .ok m) :
    ((Shop.responseInterceptor store response).1 = .returned response.data ↔
        (c = .num 200 ∨ c = .undefined)) ∧
      (¬ (c = .num 200 ∨ c = .undefined) →
        (Shop.responseInterceptor store response).1
          = .rejected (mkError (m.or (.str "Error")))) ∧
      (Shop.responseInterceptor store response).2.1 = store := by
  by_cases h : c = .num 200 ∨ c = .undefined
  · have hb : (c.isNum 200 || !c.isDefined) = true := by
      rcases h with h | h <;> subst h <;> rfl
    simp [Shop.responseInterceptor, hcode, hb, h]
  · have hb : (c.isNum 200 || !c.isDefined) = false := by
      cases c <;> simp_all [JsVal.isNum, JsVal.isDefined]
    simp [Shop.responseInterceptor, hcode, hmsg, hb, h]

/-- An instance of C8: the envelope `{code: 401, message: 'expired'}` is
rejected with `Error('expired')` and the stored token stays. -/
theorem shop_response_interceptor_witness :
    (Shop.responseInterceptor [("token", "t0")]
        ⟨.obj [("code", .num 401), ("message", .str "expired")]⟩).1
        = .rejected (mkError (JsVal.or (.str "expired") (.str "Error"))) ∧
      (Shop.responseInterceptor [("token", "t0")]
        ⟨.obj [("code", .num 401), ("message", .str "expired")]⟩).2.1
        = [("token", "t0")] :=
  have h := shop_response_interceptor [("token", "t0")]
    ⟨.obj [("code", .num 401), ("message", .str "expired")]⟩ (.num 401) (.str "expired")
    rfl rfl
  ⟨h.2.1 (by simp), h.2.2⟩

/-! ## Request headers -/

theorem JsVal.lookupProp_cons (k : String) (p : String × JsVal)
    (rest : List (String × JsVal)) :
    JsVal.lookupProp k (p :: rest) =
      match JsVal.lookupProp k rest with
      | some w => some w
      | none => if p.1 = k then some p.2 else none := rfl

theorem JsVal.lookupProp_append (k : String) (a b : List (String × JsVal)) :
    JsVal.lookupProp k (a ++ b) =
      match JsVal.lookupProp k b with
      | some w => some w
      | none => JsVal.lookupProp k a := by
  induction a with
  | nil =>
    rw [List.nil_append]
    cases JsVal.lookupProp k b <;> rfl
  | cons p rest ih =>
    rw [List.cons_append, JsVal.lookupProp_cons, ih, JsVal.lookupProp_cons]
    cases JsVal.lookupProp k b <;> rfl

theorem buildRequest_header {self : Request} {storage : Storage} {options : JsVal}
    {req : WxRequest} {H : JsVal}
    (hreq : self.buildRequest storage options = .ok req)
    (hH : options.getProp "header" = .ok H) :
    req.header = buildHeader (getStorageSync storage "token") H := by
  cases options <;>
    simp_all [Request.buildRequest, JsVal.getProp] <;>
    (subst hreq; rfl)

theorem sent_request {self : Request} {storage : Storage} {options : JsVal}
    {req : WxRequest} (hreq : self.buildRequest storage options = .ok req)
    (outcome : TransportOutcome) :
    Effect.sent (self.request storage options outcome).2 = [req] := by
  rw [request_of_built hreq]
  rcases outcome with res | err
  · simp only [onSuccess]
    split
    · split
      · rfl
      · split
        · split
          · rfl
          · split <;> rfl
        · split
          · rfl
          · split <;> rfl
    · rfl
  · rfl

theorem lookupProp_buildHeader (token H : JsVal) (k : String) :
    JsVal.lookupProp k (buildHeader token H) =
      if k = "Authorization" ∧ token.truthy = true then
        some (.str ("Bearer " ++ token.toStr))
      else
        match JsVal.lookupProp k H.ownEnumerableProps with
        | some v => some v
        | none => if k = "Content-Type" then some (.str "application/json") else none := by
  unfold buildHeader
  cases hl : JsVal.lookupProp k H.ownEnumerableProps <;>
    by_cases ht : token.truthy = true <;>
    by_cases hk : k = "Authorization" <;>
    by_cases hc : k = "Content-Type" <;>
    simp_all [JsVal.lookupProp_append, JsVal.lookupProp_cons, JsVal.lookupProp,
      @eq_comm _ "Authorization" k, @eq_comm _ "Content-Type" k]

/-- C9, as stated, fails: with the token `abc` stored and the caller override
`{Authorization: 'Basic xyz'}`, the header sent to the transport carries
`Bearer abc` under `Authorization`, not the caller's value. -/
theorem request_header_merge_counterexample :
    JsVal.lookupProp "Authorization" [("Authorization", .str "Basic xyz")]
        = some (.str "Basic xyz") ∧
      (Effect.sent
        ((Request.new "https://mall.example").request [("token", .str "abc")]
          (.obj [("url", .str "/api/v1/orders"),
            ("header", .obj [("Authorization", .str "Basic xyz")])])
          (.fail .undefined)).2).map (fun r => JsVal.lookupProp "Authorization" r.header)
        = [some (.str "Bearer abc")] ∧
      (Effect.sent
        ((Request.new "https://mall.example").request [("token", .str "abc")]
          (.obj [("url", .str "/api/v1/orders"),
            ("header", .obj [("Authorization", .str "Basic xyz")])])
          (.fail .undefined)).2).map (fun r => JsVal.lookupProp "Authorization" r.header)
        ≠ [some (.str "Basic xyz")] := by
  have h : (Effect.sent
        ((Request.new "https://mall.example").request [("token", .str "abc")]
          (.obj [("url", .str "/api/v1/orders"),
            ("header", .obj [("Authorization", .str "Basic xyz")])])
          (.fail .undefined)).2).map (fun r => JsVal.lookupProp "Authorization" r.header)
        = [some (.str "Bearer abc")] := rfl
  refine ⟨rfl, h, ?_⟩
  rw [h]
  simp

/-- C9, amended: the header sent to the transport is the default
`{'Content-Type': 'application/json'}` merged with the caller overrides `H`,
where `H` wins on every collision, and `Authorization` is then overwritten
with `'Bearer ' + token` when a truthy token is stored. Each key of `H` other
than `Authorization` maps to the value `H` gives it, and so does
`Authorization` when no truthy token is stored; `Content-Type` is the default
`application/json` when `H` has no such key; a key other than these two that
`H` lacks is absent; and `Authorization` is `'Bearer ' + token` whenever a
truthy token is stored, whatever `H` holds, and absent when no truthy token is
stored and `H` has no such key. -/
theorem request_header_merge (self : Request) (storage : Storage) (options : JsVal)
    (req : WxRequest) (H : JsVal) (outcome : TransportOutcome)
    (hreq : self.buildRequest storage options = .ok req)
    (hH : options.getProp "header" = .ok H) :
    Effect.sent (self.request storage options outcome).2 = [req] ∧
      (∀ k v, JsVal.lookupProp k H.ownEnumerableProps = some v →
        (k = "Authorization" → (getStorageSync storage "token").truthy = false) →
        JsVal.lookupProp k req.header = some v) ∧
      (JsVal.lookupProp "Content-Type" H.ownEnumerableProps = none →
        JsVal.lookupProp "Content-Type" req.header = some (.str "application/json")) ∧
      (∀ k, k ≠ "Content-Type" → k ≠ "Authorization" →
        JsVal.lookupProp k H.ownEnumerableProps = none →
        JsVal.lookupProp k req.header = none) ∧
      ((getStorageSync storage "token").truthy = true →
        JsVal.lookupProp "Authorization" req.header
          = some (.str ("Bearer " ++ (getStorageSync storage "token").toStr))) ∧
      ((getStorageSync storage "token").truthy = false →
        JsVal.lookupProp "Authorization" H.ownEnumerableProps = none →
        JsVal.lookupProp "Authorization" req.header = none) := by
  rw [buildRequest_header hreq hH]
  refine ⟨sent_request hreq outcome, ?_, ?_, ?_, ?_, ?_⟩
  · intro k v hv hk
    rw [lookupProp_buildHeader, hv]
    by_cases hka : k = "Authorization"
    · simp [hk hka]
    · simp [hka]
  · intro hn
    rw [lookupProp_buildHeader, hn]
    simp
  · intro k hc ha hn
    rw [lookupProp_buildHeader, hn]
    simp [hc, ha]
  · intro ht
    rw [lookupProp_buildHeader]
    simp [ht]
  · intro hf hn
    rw [lookupProp_buildHeader, hn]
    simp [hf]

/-- An instance of the amended C9: with the token `abc` stored, the caller's
`Content-Type` reaches the transport and the caller's `Authorization` is
overwritten with `Bearer abc`. -/
theorem request_header_merge_witness :
    JsVal.lookupProp "Content-Type"
        [("Content-Type", JsVal.str "application/json"),
          ("Content-Type", JsVal.str "multipart/form-data"),
          ("Authorization", JsVal.str "Basic xyz"),
          ("Authorization", JsVal.str "Bearer abc")]
        = some (.str "multipart/form-data") ∧
      JsVal.lookupProp "Authorization"
        [("Content-Type", JsVal.str "application/json"),
          ("Content-Type", JsVal.str "multipart/form-data"),
          ("Authorization", JsVal.str "Basic xyz"),
          ("Authorization", JsVal.str "Bearer abc")]
        = some (.str ("Bearer " ++ (getStorageSync [("token", .str "abc")] "token").toStr)) :=
  have h := request_header_merge (Request.new "https://mall.example") [("token", .str "abc")]
    (.obj [("url", .str "/api/v1/upload"),
      ("header", .obj [("Content-Type", .str "multipart/form-data"),
        ("Authorization", .str "Basic xyz")])])
    ⟨"https://mall.example/api/v1/upload", .str "GET", .obj [],
      [("Content-Type", .str "application/json"),
        ("Content-Type", .str "multipart/form-data"),
        ("Authorization", .str "Basic xyz"),
        ("Authorization", .str "Bearer abc")], 10000⟩
    (.obj [("Content-Type", .str "multipart/form-data"),
      ("Authorization", .str "Basic xyz")]) (.fail .undefined) rfl rfl
  ⟨h.2.1 "Content-Type" (.str "multipart/form-data") rfl (by decide), h.2.2.2.2.1 rfl⟩

/-- C10: in both clients the request carries `Authorization: 'Bearer ' + token`
when a truthy token is stored, whatever headers the caller passed (the
mini-program client sets it after the merge), and when the stored token is
absent or falsy the client adds nothing: the mini-program header is the plain
merge and the shop configuration is returned as it came. So, for a caller that
passes no `Authorization` of its own, the header is carried if and only if a
truthy token is stored. -/
theorem authorization_header (self : Request) (storage : Storage) (options : JsVal)
    (req : WxRequest) (H : JsVal) (store : Shop.LocalStorage) (config : Shop.AxiosConfig)
    (hreq : self.buildRequest storage options = .ok req)
    (hH : options.getProp "header" = .ok H) :
    ((getStorageSync storage "token").truthy = true →
        JsVal.lookupProp "Authorization" req.header
          = some (.str ("Bearer " ++ (getStorageSync storage "token").toStr))) ∧
      ((getStorageSync storage "token").truthy = false →
        req.header = ("Content-Type", .str "application/json") :: H.ownEnumerableProps) ∧
      ((Storage.entry storage "token" = none ∨ Storage.entry storage "token" = some (.str "")) →
        req.header = ("Content-Type", .str "application/json") :: H.ownEnumerableProps) ∧
      (JsVal.lookupProp "Authorization" H.ownEnumerableProps = none →
        (JsVal.lookupProp "Authorization" req.header
            = some (.str ("Bearer " ++ (getStorageSync storage "token").toStr)) ↔
          (getStorageSync storage "token").truthy = true)) ∧
      ((Shop.getItem store "token").truthy = true →
        JsVal.lookupProp "Authorization" (Shop.requestInterceptor store config).headers
          = some (.str ("Bearer " ++ (Shop.getItem store "token").toStr))) ∧
      ((Shop.getItem store "token").truthy = false →
        Shop.requestInterceptor store config = config) ∧
      (JsVal.lookupProp "Authorization" config.headers = none →
        (JsVal.lookupProp "Authorization" (Shop.requestInterceptor store config).headers
            = some (.str ("Bearer " ++ (Shop.getItem store "token").toStr)) ↔
          (Shop.getItem store "token").truthy = true)) := by
  rw [buildRequest_header hreq hH]
  have hfalsy : ∀ t : JsVal, t.truthy = false →
      buildHeader t H = ("Content-Type", .str "application/json") :: H.ownEnumerableProps := by
    intro t ht
    simp [buildHeader, ht]
  refine ⟨?_, hfalsy _, ?_, ?_, ?_, ?_, ?_⟩
  · intro ht
    rw [lookupProp_buildHeader]
    simp [ht]
  · intro h
    apply hfalsy
    rcases h with h | h <;> simp [getStorageSync, h, JsVal.truthy]
  · intro hn
    rw [lookupProp_buildHeader, hn]
    by_cases ht : (getStorageSync storage "token").truthy = true <;> simp [ht]
  · intro ht
    simp [Shop.requestInterceptor, ht, JsVal.lookupProp_append, JsVal.lookupProp]
  · intro ht
    simp [Shop.requestInterceptor, ht]
  · intro hn
    by_cases ht : (Shop.getItem store "token").truthy = true
    · simp [Shop.requestInterceptor, ht, JsVal.lookupProp_append, JsVal.lookupProp]
    · simp [Shop.requestInterceptor, ht, hn]

/-- An instance of C10: with the token `abc` stored in both stores, both
clients send `Authorization: Bearer abc`, the mini-program one over the
caller's own `Authorization`. -/
theorem authorization_header_witness :
    JsVal.lookupProp "Authorization"
        [("Content-Type", JsVal.str "application/json"),
          ("Authorization", JsVal.str "Basic xyz"),
          ("Authorization", JsVal.str "Bearer abc")]
        = some (.str ("Bearer " ++ (getStorageSync [("token", .str "abc")] "token").toStr)) ∧
      JsVal.lookupProp "Authorization"
        (Shop.requestInterceptor [("token", "abc")] ⟨[], [("url", .str "/cart")]⟩).headers
        = some (.str ("Bearer " ++ (Shop.getItem [("token", "abc")] "token").toStr)) :=
  have h := authorization_header (Request.new "https://mall.example") [("token", .str "abc")]
    (.obj [("url", .str "/api/v1/orders"),
      ("header", .obj [("Authorization", .str "Basic xyz")])])
    ⟨"https://mall.example/api/v1/orders", .str "GET", .obj [],
      [("Content-Type", .str "application/json"), ("Authorization", .str "Basic xyz"),
        ("Authorization", .str "Bearer abc")], 10000⟩
    (.obj [("Authorization", .str "Basic xyz")]) [("token", "abc")]
    ⟨[], [("url", .str "/cart")]⟩ rfl rfl
  ⟨h.1 rfl, h.2.2.2.2.1 rfl⟩

/-! ## The transport request and the verb methods -/

theorem buildRequest_of_reads {self : Request} {storage : Storage}
    {options h url method data : JsVal}
    (hh : options.getProp "header" = .ok h) (hu : options.getProp "url" = .ok url)
    (hm : options.getProp "method" = .ok method) (hd : options.getProp "data" = .ok data) :
    self.buildRequest storage options =
      .ok ⟨self.baseURL ++ url.toStr, method.or (.str "GET"), data.or (.obj []),
        buildHeader (getStorageSync storage "token") h, self.timeout⟩ := by
  simp [Request.buildRequest, hh, hu, hm, hd]

theorem JsVal.or_of_truthy {a : JsVal} (b : JsVal) (h : a.truthy = true) : a.or b = a := by
  simp [JsVal.or, h]

theorem JsVal.or_of_falsy {a : JsVal} (b : JsVal) (h : a.truthy = false) : a.or b = b := by
  simp [JsVal.or, h]

/-- C11: every call of `request(options)` on an instance built by the
constructor hands the transport the url `baseURL + options.url` (string
concatenation), the timeout 10000 fixed at construction, the method
`options.method || 'GET'` (so `GET` when none is given) and the data
`options.data || {}` (so the empty object when none is given). The instance is
only read: it is no part of what the call changes. -/
theorem request_transport_arguments (b : String) (storage : Storage)
    (options h url method data : JsVal) (outcome : TransportOutcome)
    (hh : options.getProp "header" = .ok h) (hu : options.getProp "url" = .ok url)
    (hm : options.getProp "method" = .ok method) (hd : options.getProp "data" = .ok data) :
    ∃ req, Effect.sent ((Request.new b).request storage options outcome).2 = [req] ∧
      req.url = b ++ url.toStr ∧
      (∀ s, url = .str s → req.url = b ++ s) ∧
      req.timeout = 10000 ∧
      req.method = method.or (.str "GET") ∧
      (method.truthy = true → req.method = method) ∧
      (method = .undefined → req.method = .str "GET") ∧
      req.data = data.or (.obj []) ∧
      (data.truthy = true → req.data = data) ∧
      (data = .undefined → req.data = .obj []) := by
  refine ⟨_, sent_request (buildRequest_of_reads hh hu hm hd) outcome, rfl, ?_, rfl, rfl,
    ?_, ?_, rfl, ?_, ?_⟩
  · intro s hs
    subst hs
    rfl
  · intro ht
    exact JsVal.or_of_truthy _ ht
  · intro hs
    subst hs
    rfl
  · intro ht
    exact JsVal.or_of_truthy _ ht
  · intro hs
    subst hs
    rfl

/-- An instance of C11: a call with a url only is sent as a `GET` to the
concatenated url with the empty object as data and the timeout 10000. -/
theorem request_transport_arguments_witness :
    ∃ req, Effect.sent
        ((Request.new "https://mall.example").request []
          (.obj [("url", .str "/api/v1/orders")]) (.fail .undefined)).2 = [req] ∧
      req.url = "https://mall.example" ++ "/api/v1/orders" ∧
      req.timeout = 10000 ∧ req.method = .str "GET" ∧ req.data = .obj [] :=
  have ⟨req, h⟩ := request_transport_arguments "https://mall.example" []
    (.obj [("url", .str "/api/v1/orders")]) .undefined (.str "/api/v1/orders")
    .undefined .undefined (.fail .undefined) rfl rfl rfl rfl
  ⟨req, h.1, h.2.2.1 _ rfl, h.2.2.2.1, h.2.2.2.2.2.2.1 rfl, h.2.2.2.2.2.2.2.2.2 rfl⟩

theorem verb_sent (self : Request) (storage : Storage) (verb : String)
    (url data options : JsVal) (outcome : TransportOutcome)
    (hu : JsVal.lookupProp "url" options.ownEnumerableProps = none)
    (hm : JsVal.lookupProp "method" options.ownEnumerableProps = none)
    (hd : JsVal.lookupProp "data" options.ownEnumerableProps = none) :
    ∃ req, Effect.sent
        (self.request storage (verbOptions verb url data options) outcome).2 = [req] ∧
      req.method = (JsVal.str verb).or (.str "GET") ∧
      req.url = self.baseURL ++ url.toStr ∧
      req.data = data.or (.obj []) := by
  have hu2 : (verbOptions verb url data options).getProp "url" = .ok url := by
    simp [verbOptions, JsVal.getProp, JsVal.lookupProp_append, hu, JsVal.lookupProp]
  have hm2 : (verbOptions verb url data options).getProp "method" = .ok (.str verb) := by
    simp [verbOptions, JsVal.getProp, JsVal.lookupProp_append, hm, JsVal.lookupProp]
  have hd2 : (verbOptions verb url data options).getProp "data" = .ok data := by
    simp [verbOptions, JsVal.getProp, JsVal.lookupProp_append, hd, JsVal.lookupProp]
  have hh2 : (verbOptions verb url data options).getProp "header" =
      .ok ((JsVal.lookupProp "header"
        ([("url", url), ("method", .str verb), ("data", data)]
          ++ options.ownEnumerableProps)).getD .undefined) := rfl
  exact ⟨_, sent_request (buildRequest_of_reads hh2 hu2 hm2 hd2) outcome, rfl, rfl, rfl⟩

/-- C12, as stated, fails: `get('/api/v1/cart', {}, {method: 'POST'})` issues
the transport request with method `POST`, because the spread of `options`
comes after `method: 'GET'` in the object passed to `request`. -/
theorem verb_methods_counterexample :
    (Effect.sent
        ((Request.new "https://mall.example").get [] (.str "/api/v1/cart") (.obj [])
          (.obj [("method", .str "POST")]) (.fail .undefined)).2).map (fun r => r.method)
        = [.str "POST"] ∧
      (Effect.sent
        ((Request.new "https://mall.example").get [] (.str "/api/v1/cart") (.obj [])
          (.obj [("method", .str "POST")]) (.fail .undefined)).2).map (fun r => r.method)
        ≠ [.str "GET"] := by
  have h : (Effect.sent
        ((Request.new "https://mall.example").get [] (.str "/api/v1/cart") (.obj [])
          (.obj [("method", .str "POST")]) (.fail .undefined)).2).map (fun r => r.method)
        = [.str "POST"] := rfl
  refine ⟨h, ?_⟩
  rw [h]
  simp

/-- C12, amended: for every path and payload, and every options object that
has no `url`, `method` or `data` property of its own, `get` issues the
transport request with method `GET`, `post` with `POST`, `put` with `PUT` and
`delete` with `DELETE`, each for the url `baseURL + path` and with the payload
as data when it is truthy, and the empty object otherwise (the payload
defaults to the empty object). -/
theorem verb_methods (self : Request) (storage : Storage) (path payload options : JsVal)
    (outcome : TransportOutcome)
    (hu : JsVal.lookupProp "url" (defaultArg options (.obj [])).ownEnumerableProps = none)
    (hm : JsVal.lookupProp "method" (defaultArg options (.obj [])).ownEnumerableProps = none)
    (hd : JsVal.lookupProp "data" (defaultArg options (.obj [])).ownEnumerableProps = none) :
    (∃ req, Effect.sent (self.get storage path payload options outcome).2 = [req] ∧
        req.method = .str "GET" ∧ req.url = self.baseURL ++ path.toStr ∧
        (payload.truthy = true → req.data = payload) ∧
        (payload.truthy = false → req.data = .obj [])) ∧
      (∃ req, Effect.sent (self.post storage path payload options outcome).2 = [req] ∧
        req.method = .str "POST" ∧ req.url = self.baseURL ++ path.toStr ∧
        (payload.truthy = true → req.data = payload) ∧
        (payload.truthy = false → req.data = .obj [])) ∧
      (∃ req, Effect.sent (self.put storage path payload options outcome).2 = [req] ∧
        req.method = .str "PUT" ∧ req.url = self.baseURL ++ path.toStr ∧
        (payload.truthy = true → req.data = payload) ∧
        (payload.truthy = false → req.data = .obj [])) ∧
      (∃ req, Effect.sent (self.delete storage path payload options outcome).2 = [req] ∧
        req.method = .str "DELETE" ∧ req.url = self.baseURL ++ path.toStr ∧
        (payload.truthy = true → req.data = payload) ∧
        (payload.truthy = false → req.data = .obj [])) := by
  have hdata : ∀ d : JsVal, d = (defaultArg payload (.obj [])).or (.obj []) →
      (payload.truthy = true → d = payload) ∧ (payload.truthy = false → d = .obj []) := by
    intro d hdv
    subst hdv
    cases payload <;> simp [defaultArg, JsVal.or, JsVal.truthy]
  refine ⟨?_, ?_, ?_, ?_⟩
  · obtain ⟨req, h1, h2, h3, h4⟩ := verb_sent self storage "GET" path
      (defaultArg payload (.obj [])) (defaultArg options (.obj [])) outcome hu hm hd
    exact ⟨req, h1, h2, h3, hdata _ h4⟩
  · obtain ⟨req, h1, h2, h3, h4⟩ := verb_sent self storage "POST" path
      (defaultArg payload (.obj [])) (defaultArg options (.obj [])) outcome hu hm hd
    exact ⟨req, h1, h2, h3, hdata _ h4⟩
  · obtain ⟨req, h1, h2, h3, h4⟩ := verb_sent self storage "PUT" path
      (defaultArg payload (.obj [])) (defaultArg options (.obj [])) outcome hu hm hd
    exact ⟨req, h1, h2, h3, hdata _ h4⟩
  · obtain ⟨req, h1, h2, h3, h4⟩ := verb_sent self storage "DELETE" path
      (defaultArg payload (.obj [])) (defaultArg options (.obj [])) outcome hu hm hd
    exact ⟨req, h1, h2, h3, hdata _ h4⟩

/-- An instance of the amended C12: `post('/api/v1/cart', {quantity: 2})` with
a header option is sent as a `POST` with that payload. -/
theorem verb_methods_witness :
    ∃ req, Effect.sent
        ((Request.new "https://mall.example").post [] (.str "/api/v1/cart")
          (.obj [("quantity", .num 2)]) (.obj [("header", .obj [("X-Trace", .str "1")])])
          (.fail .undefined)).2 = [req] ∧
      req.method = .str "POST" ∧ req.data = .obj [("quantity", .num 2)] :=
  have ⟨req, h⟩ := (verb_methods (Request.new "https://mall.example") [] (.str "/api/v1/cart")
    (.obj [("quantity", .num 2)]) (.obj [("header", .obj [("X-Trace", .str "1")])])
    (.fail .undefined) rfl rfl rfl).2.1
  ⟨req, h.1, h.2.1, h.2.2.2.1 rfl⟩

/-! ## Order and frame of the effects -/

theorem onSuccess_shape (storage : Storage) (res : WxResponse) :
    (res.statusCode ≠ 200 ∧
        onSuccess storage res =
          (storage, [.showToast (.str "网络错误") "none", .reject (.error "网络错误")])) ∨
      (res.statusCode = 200 ∧ ∃ e, onSuccess storage res = (storage, [.uncaught e])) ∨
      (res.statusCode = 200 ∧ ∃ v, onSuccess storage res = (storage, [.resolve v])) ∨
      (res.statusCode = 200 ∧ res.data.getProp "code" = .ok (.num 401) ∧
        onSuccess storage res =
          (removeStorageSync (removeStorageSync storage "token") "userInfo",
            [.removeStorage "token", .removeStorage "userInfo",
              .showToast (.str "请重新登录") "none", .switchTab "/pages/user/index",
              .reject (.error "未授权")])) ∨
      (res.statusCode = 200 ∧ ∃ m,
        onSuccess storage res = (storage, [.showToast m "none", .reject (mkError m)])) := by
  by_cases hs : res.statusCode = 200
  · cases hc : res.data.getProp "code" with
    | error e =>
      exact Or.inr (Or.inl ⟨hs, e, by simp [onSuccess, hs, hc]⟩)
    | ok code =>
      by_cases h200 : code.isNum 200 = true
      · cases hd : res.data.getProp "data" with
        | error e =>
          exact Or.inr (Or.inl ⟨hs, e, by simp [onSuccess, hs, hc, h200, hd]⟩)
        | ok d =>
          refine Or.inr (Or.inr (Or.inl ⟨hs, ?_⟩))
          by_cases hdef : d.isDefined = true
          · exact ⟨d, by simp [onSuccess, hs, hc, h200, hd, hdef]⟩
          · exact ⟨res.data, by simp [onSuccess, hs, hc, h200, hd, hdef]⟩
      · by_cases h401 : code.isNum 401 = true
        · have hcode : code = .num 401 := JsVal.isNum_eq_true.mp h401
          subst hcode
          exact Or.inr (Or.inr (Or.inr (Or.inl ⟨hs, rfl, by
            simp [onSuccess, hs, hc, JsVal.isNum, mkError, JsVal.toStr]⟩)))
        · cases hm : res.data.getProp "message" with
          | error e =>
            exact Or.inr (Or.inl ⟨hs, e, by simp [onSuccess, hs, hc, h200, h401, hm]⟩)
          | ok m =>
            exact Or.inr (Or.inr (Or.inr (Or.inr ⟨hs, m.or (.str "请求失败"), by
              simp [onSuccess, hs, hc, h200, h401, hm]⟩)))
  · exact Or.inl ⟨hs, by simp [onSuccess, hs, mkError, JsVal.toStr]⟩

theorem Effect.rejected_append_reject (pre post : List Effect) (e : JsError) :
    Effect.rejected (pre ++ .reject e :: post) ≠ [] := by
  induction pre with
  | nil => simp [Effect.rejected]
  | cons p rest ih => cases p <;> simp [Effect.rejected, ih]

theorem Effect.pre_eq_of_reject_last {xs pre post : List Effect} {e e0 : JsError}
    (hx : Effect.rejected xs = [])
    (h : xs ++ [.reject e0] = pre ++ .reject e :: post) : pre = xs := by
  induction xs generalizing pre with
  | nil =>
    cases pre with
    | nil => rfl
    | cons p rest =>
      simp only [List.nil_append, List.cons_append, List.cons.injEq] at h
      have h2 := h.2
      cases rest <;> simp at h2
  | cons x xs ih =>
    cases pre with
    | nil =>
      simp only [List.nil_append, List.cons_append, List.cons.injEq] at h
      rw [h.1] at hx
      simp [Effect.rejected] at hx
    | cons p rest =>
      simp only [List.cons_append, List.cons.injEq] at h
      have hx2 : Effect.rejected xs = [] := by
        cases x <;> simp_all [Effect.rejected]
      rw [h.1, ih hx2 h.2]

theorem request_unauthorized_effects {self : Request} {storage : Storage} {options : JsVal}
    {req : WxRequest} {res : WxResponse}
    (hreq : self.buildRequest storage options = .ok req)
    (hstatus : res.statusCode = 200)
    (hcode : res.data.getProp "code" = .ok (.num 401)) :
    (self.request storage options (.success res)).2 =
      [.wxRequest req, .removeStorage "token", .removeStorage "userInfo",
          .showToast (.str "请重新登录") "none", .switchTab "/pages/user/index"]
        ++ [.reject (.error "未授权")] := by
  simp [request_of_built hreq, onSuccess, hstatus, hcode, JsVal.isNum, mkError, JsVal.toStr]

theorem request_reject_shape {self : Request} {storage : Storage} {options : JsVal}
    {req : WxRequest} (hreq : self.buildRequest storage options = .ok req)
    (outcome : TransportOutcome) :
    Effect.rejected (self.request storage options outcome).2 = [] ∨
      ∃ xs e0 t i, (self.request storage options outcome).2 = xs ++ [.reject e0] ∧
        Effect.rejected xs = [] ∧ Effect.showToast t i ∈ xs := by
  rw [request_of_built hreq]
  rcases outcome with res | err
  · rcases onSuccess_shape storage res with ⟨_, h⟩ | ⟨_, e, h⟩ | ⟨_, v, h⟩ | ⟨_, _, h⟩ | ⟨_, m, h⟩
    · refine Or.inr ⟨[.wxRequest req, .showToast (.str "网络错误") "none"],
        .error "网络错误", .str "网络错误", "none", ?_, rfl, ?_⟩
      · simp only [h]; rfl
      · simp
    · exact Or.inl (by simp only [h]; rfl)
    · exact Or.inl (by simp only [h]; rfl)
    · refine Or.inr ⟨[.wxRequest req, .removeStorage "token", .removeStorage "userInfo",
        .showToast (.str "请重新登录") "none", .switchTab "/pages/user/index"],
        .error "未授权", .str "请重新登录", "none", ?_, rfl, ?_⟩
      · simp only [h]; rfl
      · simp
    · refine Or.inr ⟨[.wxRequest req, .showToast m "none"], mkError m, m, "none", ?_, rfl, ?_⟩
      · simp only [h]; rfl
      · simp
  · refine Or.inr ⟨[.wxRequest req, .consoleError "Request failed:" err,
      .showToast (.str "网络连接失败") "none"], .error "网络连接失败", .str "网络连接失败", "none",
      ?_, rfl, ?_⟩
    · rfl
    · simp

/-- C13: once a request has been handed to the transport, the side effects
come before the rejection in the order of the effects. Whatever precedes a
call of `reject` contains a toast, so no path rejects without a toast shown
first; and on the 401 path both removals, the toast and the redirect all
precede the call of `reject`. -/
theorem request_effects_precede_reject (self : Request) (storage : Storage)
    (options : JsVal) (req : WxRequest) (outcome : TransportOutcome)
    (hreq : self.buildRequest storage options = .ok req) :
    (∀ pre e post, (self.request storage options outcome).2 = pre ++ .reject e :: post →
        ∃ t i, Effect.showToast t i ∈ pre) ∧
      (∀ res, outcome = .success res → res.statusCode = 200 →
        res.data.getProp "code" = .ok (.num 401) →
        ∃ pre e, (self.request storage options outcome).2 = pre ++ [.reject e] ∧
          Effect.rejected pre = [] ∧
          Effect.removeStorage "token" ∈ pre ∧ Effect.removeStorage "userInfo" ∈ pre ∧
          Effect.showToast (.str "请重新登录") "none" ∈ pre ∧
          Effect.switchTab "/pages/user/index" ∈ pre) := by
  constructor
  · intro pre e post hsplit
    rcases request_reject_shape hreq outcome with hnone | ⟨xs, e0, t, i, hL, hx, hmem⟩
    · rw [hsplit] at hnone
      exact absurd hnone (Effect.rejected_append_reject pre post e)
    · rw [hL] at hsplit
      have hpre := Effect.pre_eq_of_reject_last hx hsplit
      exact ⟨t, i, hpre ▸ hmem⟩
  · intro res hout hstatus hcode
    subst hout
    refine ⟨_, _, request_unauthorized_effects hreq hstatus hcode, rfl, ?_, ?_, ?_, ?_⟩ <;> simp

/-- An instance of C13: in the effects of a call answered with code 500 the
toast stands before the rejection. -/
theorem request_effects_precede_reject_witness :
    ∃ t i, Effect.showToast t i ∈
      [Effect.wxRequest ⟨"https://mall.example/api/v1/cart", .str "GET", .obj [],
          [("Content-Type", .str "application/json")], 10000⟩,
        Effect.showToast (.str "库存不足") "none"] :=
  (request_effects_precede_reject (Request.new "https://mall.example") []
    (.obj [("url", .str "/api/v1/cart")])
    ⟨"https://mall.example/api/v1/cart", .str "GET", .obj [],
      [("Content-Type", .str "application/json")], 10000⟩
    (.success ⟨200, .obj [("code", .num 500), ("message", .str "库存不足")]⟩) rfl).1
    [Effect.wxRequest ⟨"https://mall.example/api/v1/cart", .str "GET", .obj [],
        [("Content-Type", .str "application/json")], 10000⟩,
      Effect.showToast (.str "库存不足") "none"]
    (.error "库存不足") [] rfl

/-- C14: for every transport outcome other than status 200 with envelope code
401 (a success, another application code, a status other than 200, a transport
failure, and also a call that never reached the transport) the storage is left
as it was, so the entries `token` and `userInfo` are unchanged, nothing is
removed and no redirect is triggered. -/
theorem request_frame (self : Request) (storage : Storage) (options : JsVal)
    (outcome : TransportOutcome)
    (h : ∀ res, outcome = .success res → res.statusCode = 200 →
      res.data.getProp "code" ≠ .ok (.num 401)) :
    (self.request storage options outcome).1 = storage ∧
      Storage.entry (self.request storage options outcome).1 "token"
        = Storage.entry storage "token" ∧
      Storage.entry (self.request storage options outcome).1 "userInfo"
        = Storage.entry storage "userInfo" ∧
      Effect.removals (self.request storage options outcome).2 = [] ∧
      Effect.redirects (self.request storage options outcome).2 = [] := by
  have key : (self.request storage options outcome).1 = storage ∧
      Effect.removals (self.request storage options outcome).2 = [] ∧
      Effect.redirects (self.request storage options outcome).2 = [] := by
    cases hreq : self.buildRequest storage options with
    | error e => simp [Request.request, hreq, Effect.removals, Effect.redirects]
    | ok req =>
      rw [request_of_built hreq]
      rcases outcome with res | err
      · rcases onSuccess_shape storage res with
          ⟨_, hs⟩ | ⟨_, e, hs⟩ | ⟨_, v, hs⟩ | ⟨h200, hcode, _⟩ | ⟨_, m, hs⟩
        · simp [hs, Effect.removals, Effect.redirects]
        · simp [hs, Effect.removals, Effect.redirects]
        · simp [hs, Effect.removals, Effect.redirects]
        · exact absurd hcode (h res rfl h200)
        · simp [hs, Effect.removals, Effect.redirects]
      · exact ⟨rfl, rfl, rfl⟩
  refine ⟨key.1, ?_, ?_, key.2.1, key.2.2⟩
  · rw [key.1]
  · rw [key.1]

/-- An instance of C14: an application error of code 500 keeps the stored
token and profile and triggers no redirect. -/
theorem request_frame_witness :
    ((Request.new "https://mall.example").request
        [("token", .str "t0"), ("userInfo", .obj [("id", .num 3)])]
        (.obj [("url", .str "/api/v1/cart")])
        (.success ⟨200, .obj [("code", .num 500)]⟩)).1
        = [("token", .str "t0"), ("userInfo", .obj [("id", .num 3)])] ∧
      Effect.redirects
        ((Request.new "https://mall.example").request
          [("token", .str "t0"), ("userInfo", .obj [("id", .num 3)])]
          (.obj [("url", .str "/api/v1/cart")])
          (.success ⟨200, .obj [("code", .num 500)]⟩)).2 = [] :=
  have h := request_frame (Request.new "https://mall.example")
    [("token", .str "t0"), ("userInfo", .obj [("id", .num 3)])]
    (.obj [("url", .str "/api/v1/cart")])
    (.success ⟨200, .obj [("code", .num 500)]⟩)
    (by
      intro res hres _
      cases hres
      simp [JsVal.getProp, JsVal.lookupProp])
  ⟨h.1, h.2.2.2.2⟩

theorem buildRequest_of_defined (self : Request) (storage : Storage) {options : JsVal}
    (hu : options ≠ .undefined) (hn : options ≠ .null) :
    ∃ req, self.buildRequest storage options = .ok req := by
  cases options with
  | undefined => exact absurd rfl hu
  | null => exact absurd rfl hn
  | bool b => exact ⟨_, rfl⟩
  | num n => exact ⟨_, rfl⟩
  | str t => exact ⟨_, rfl⟩
  | arr items => exact ⟨_, rfl⟩
  | obj props => exact ⟨_, rfl⟩

theorem sent_length_of_defined (self : Request) (storage : Storage) {options : JsVal}
    (hu : options ≠ .undefined) (hn : options ≠ .null) (outcome : TransportOutcome) :
    (Effect.sent (self.request storage options outcome).2).length = 1 := by
  obtain ⟨req, hreq⟩ := buildRequest_of_defined self storage hu hn
  rw [sent_request hreq outcome]
  rfl

/-- C15: a call of `request` with an options object invokes the transport
exactly once, whatever the outcome (success, application error, 401, status
other than 200, transport failure), and no call invokes it more than once; a
call of `get`, `post`, `put` or `delete` invokes it exactly once for all
arguments. -/
theorem request_sends_once (self : Request) (storage : Storage)
    (options path payload verbOpts : JsVal) (outcome : TransportOutcome) :
    (Effect.sent (self.request storage options outcome).2).length ≤ 1 ∧
      (options ≠ .undefined → options ≠ .null →
        (Effect.sent (self.request storage options outcome).2).length = 1) ∧
      (Effect.sent (self.get storage path payload verbOpts outcome).2).length = 1 ∧
      (Effect.sent (self.post storage path payload verbOpts outcome).2).length = 1 ∧
      (Effect.sent (self.put storage path payload verbOpts outcome).2).length = 1 ∧
      (Effect.sent (self.delete storage path payload verbOpts outcome).2).length = 1 := by
  refine ⟨?_, fun hu hn => sent_length_of_defined self storage hu hn outcome, ?_, ?_, ?_, ?_⟩
  · cases hreq : self.buildRequest storage options with
    | error e => simp [Request.request, hreq, Effect.sent]
    | ok req => simp [sent_request hreq outcome]
  · exact sent_length_of_defined self storage (by simp [verbOptions]) (by simp [verbOptions])
      outcome
  · exact sent_length_of_defined self storage (by simp [verbOptions]) (by simp [verbOptions])
      outcome
  · exact sent_length_of_defined self storage (by simp [verbOptions]) (by simp [verbOptions])
      outcome
  · exact sent_length_of_defined self storage (by simp [verbOptions]) (by simp [verbOptions])
      outcome

/-- An instance of C15: a call answered with the 401 envelope has invoked the
transport once. -/
theorem request_sends_once_witness :
    (Effect.sent
      ((Request.new "https://mall.example").request [("token", .str "t0")]
        (.obj [("url", .str "/api/v1/orders")])
        (.success ⟨200, .obj [("code", .num 401)]⟩)).2).length = 1 :=
  (request_sends_once (Request.new "https://mall.example") [("token", .str "t0")]
    (.obj [("url", .str "/api/v1/orders")]) .undefined .undefined .undefined
    (.success ⟨200, .obj [("code", .num 401)]⟩)).2.1 (by simp) (by simp)

theorem onSuccess_effects_eq (s1 s2 : Storage) (res : WxResponse) :
    (onSuccess s1 res).2 = (onSuccess s2 res).2 := by
  by_cases hs : res.statusCode = 200
  · cases hc : res.data.getProp "code" with
    | error e => simp [onSuccess, hs, hc]
    | ok code =>
      by_cases h200 : code.isNum 200 = true
      · cases hd : res.data.getProp "data" with
        | error e => simp [onSuccess, hs, hc, h200, hd]
        | ok d =>
          by_cases hdef : d.isDefined = true <;> simp [onSuccess, hs, hc, h200, hd, hdef]
      · by_cases h401 : code.isNum 401 = true
        · simp [onSuccess, hs, hc, h200, h401]
        · cases hm : res.data.getProp "message" with
          | error e => simp [onSuccess, hs, hc, h200, h401, hm]
          | ok m => simp [onSuccess, hs, hc, h200, h401, hm]
  · simp [onSuccess, hs]

theorem buildRequest_eq_of_token (self : Request) {s1 s2 : Storage} (options : JsVal)
    (ht : getStorageSync s1 "token" = getStorageSync s2 "token") :
    self.buildRequest s1 options = self.buildRequest s2 options := by
  simp only [Request.buildRequest, ht]

theorem request_effects_eq_of_token (self : Request) {s1 s2 : Storage} (options : JsVal)
    (outcome : TransportOutcome)
    (ht : getStorageSync s1 "token" = getStorageSync s2 "token") :
    (self.request s1 options outcome).2 = (self.request s2 options outcome).2 := by
  have hb := buildRequest_eq_of_token self options ht
  cases hreq : self.buildRequest s2 options with
  | error e =>
    rw [hreq] at hb
    simp [Request.request, hb, hreq]
  | ok req =>
    rw [hreq] at hb
    rw [request_of_built hb, request_of_built hreq]
    rcases outcome with res | err
    · simp [onSuccess_effects_eq s1 s2 res]
    · rfl

/-- C16: the effects of a `get` call depend on the storage through the token
only. Two calls on the same instance with the same path, payload and options,
made with the same stored token and ended by the same transport outcome, have
the same effects: the same transport request is sent, and the promise is
resolved with equal values or rejected with equal reasons. -/
theorem get_deterministic (self : Request) (s1 s2 : Storage) (path payload options : JsVal)
    (outcome : TransportOutcome)
    (ht : getStorageSync s1 "token" = getStorageSync s2 "token") :
    (self.get s1 path payload options outcome).2
        = (self.get s2 path payload options outcome).2 ∧
      Effect.sent (self.get s1 path payload options outcome).2
        = Effect.sent (self.get s2 path payload options outcome).2 ∧
      Effect.resolved (self.get s1 path payload options outcome).2
        = Effect.resolved (self.get s2 path payload options outcome).2 ∧
      Effect.rejected (self.get s1 path payload options outcome).2
        = Effect.rejected (self.get s2 path payload options outcome).2 ∧
      Effect.settle (self.get s1 path payload options outcome).2
        = Effect.settle (self.get s2 path payload options outcome).2 := by
  have h : (self.get s1 path payload options outcome).2
      = (self.get s2 path payload options outcome).2 :=
    request_effects_eq_of_token self _ outcome ht
  exact ⟨h, by rw [h], by rw [h], by rw [h], by rw [h]⟩

/-- An instance of C16: the same `get` made with the token `t0` stored next to
two different other entries is resolved with the same value both times. -/
theorem get_deterministic_witness :
    Effect.settle
        ((Request.new "https://mall.example").get
          [("token", .str "t0"), ("theme", .str "dark")]
          (.str "/api/v1/orders") .undefined .undefined
          (.success ⟨200, .obj [("code", .num 200), ("data", .arr [.num 1])]⟩)).2
      = Effect.settle
        ((Request.new "https://mall.example").get
          [("theme", .str "light"), ("token", .str "t0")]
          (.str "/api/v1/orders") .undefined .undefined
          (.success ⟨200, .obj [("code", .num 200), ("data", .arr [.num 1])]⟩)).2 :=
  (get_deterministic (Request.new "https://mall.example")
    [("token", .str "t0"), ("theme", .str "dark")]
    [("theme", .str "light"), ("token", .str "t0")]
    (.str "/api/v1/orders") .undefined .undefined
    (.success ⟨200, .obj [("code", .num 200), ("data", .arr [.num 1])]⟩) rfl).2.2.2.2

/-! ## Address validation -/

theorem blankField_of_text {v : JsVal} (h : v.truthy = true → ∃ s, v = .str s) :
    blankField v = .ok (!Spec.nonBlank v) := by
  cases v with
  | str s =>
    by_cases hs : s = ""
    · subst hs; rfl
    · simp [blankField, Spec.nonBlank, JsVal.truthy, hs, bne]
  | undefined => rfl
  | null => rfl
  | bool b =>
    cases b
    · rfl
    · obtain ⟨s, hs⟩ := h rfl
      cases hs
  | num n =>
    by_cases hn : n = 0
    · subst hn; rfl
    · obtain ⟨s, hs⟩ := h (by simp [JsVal.truthy, hn])
      cases hs
  | arr items =>
    obtain ⟨s, hs⟩ := h rfl
    cases hs
  | obj props =>
    obtain ⟨s, hs⟩ := h rfl
    cases hs

theorem isPhoneNumber_length {s : String} (h : isPhoneNumber s = true) : s.length = 11 := by
  unfold isPhoneNumber at h
  rw [String.length]
  split at h
  · next c1 c2 rest heq =>
    simp only [Bool.and_eq_true, beq_iff_eq] at h
    rw [heq]
    simp [h.1.2]
  · simp at h

theorem badPhone_of_text {v : JsVal} (h : v.truthy = true → ∃ s, v = .str s) :
    badPhone v = !Spec.validPhone v := by
  cases v with
  | str s =>
    cases hp : isPhoneNumber s with
    | false => simp [badPhone, Spec.validPhone, JsVal.toStr, hp]
    | true =>
      have hl := isPhoneNumber_length hp
      have hne : s ≠ "" := by
        intro he
        subst he
        simp [String.length] at hl
      simp [badPhone, Spec.validPhone, JsVal.toStr, hp, hl, JsVal.truthy, hne]
  | undefined => rfl
  | null => rfl
  | bool b =>
    cases b
    · rfl
    · obtain ⟨s, hs⟩ := h rfl
      cases hs
  | num n =>
    by_cases hn : n = 0
    · subst hn; rfl
    · obtain ⟨s, hs⟩ := h (by simp [JsVal.truthy, hn])
      cases hs
  | arr items =>
    obtain ⟨s, hs⟩ := h rfl
    cases hs
  | obj props =>
    obtain ⟨s, hs⟩ := h rfl
    cases hs

theorem pushIf_not (b : Bool) (message : String) (errors : List String) :
    pushIf (!b) message errors = errors ++ (if b then [] else [message]) := by
  cases b <;> simp [pushIf]

/-- C17: for an address whose six fields are strings or falsy values,
`validateAddress` returns `isValid` and `errors` as the claim describes them:
`isValid` is true exactly when `errors` is empty, which holds exactly when the
name, province, city, district and detail are non-empty after trimming and the
phone is an 11-character string matching the pattern; and `errors` holds one
message per failing field in the order name, phone, province, city, district,
detail. -/
theorem validateAddress_refines (address name phone province city district detail : JsVal)
    (h1 : address.getProp "receiver_name" = .ok name)
    (h2 : address.getProp "phone" = .ok phone)
    (h3 : address.getProp "province" = .ok province)
    (h4 : address.getProp "city" = .ok city)
    (h5 : address.getProp "district" = .ok district)
    (h6 : address.getProp "detail" = .ok detail)
    (t1 : name.truthy = true → ∃ s, name = .str s)
    (t2 : phone.truthy = true → ∃ s, phone = .str s)
    (t3 : province.truthy = true → ∃ s, province = .str s)
    (t4 : city.truthy = true → ∃ s, city = .str s)
    (t5 : district.truthy = true → ∃ s, district = .str s)
    (t6 : detail.truthy = true → ∃ s, detail = .str s) :
    validateAddress address =
        .ok (.obj [("isValid",
            .bool ((Spec.addressErrors name phone province city district detail).length == 0)),
          ("errors",
            .arr ((Spec.addressErrors name phone province city district detail).map
              JsVal.str))]) ∧
      (((Spec.addressErrors name phone province city district detail).length == 0) = true ↔
        Spec.addressErrors name phone province city district detail = []) ∧
      (Spec.addressErrors name phone province city district detail = [] ↔
        (Spec.nonBlank name = true ∧ Spec.validPhone phone = true ∧
          Spec.nonBlank province = true ∧ Spec.nonBlank city = true ∧
          Spec.nonBlank district = true ∧ Spec.nonBlank detail = true)) := by
  have herr : addressErrors address =
      .ok (Spec.addressErrors name phone province city district detail) := by
    simp only [addressErrors, h1, h2, h3, h4, h5, h6, blankField_of_text t1,
      blankField_of_text t3, blankField_of_text t4, blankField_of_text t5,
      blankField_of_text t6, badPhone_of_text t2, bind, Except.bind, pure, Except.pure,
      pushIf_not, List.nil_append, Spec.addressErrors]
  refine ⟨?_, ?_, ?_⟩
  · simp only [validateAddress, herr]
  · simp
  · unfold Spec.addressErrors
    cases Spec.nonBlank name <;> cases Spec.validPhone phone <;>
      cases Spec.nonBlank province <;> cases Spec.nonBlank city <;>
      cases Spec.nonBlank district <;> cases Spec.nonBlank detail <;> simp

/-- An instance of C17: a blank name, a phone starting with `12` and a missing
city give the three messages in the order name, phone, city. -/
theorem validateAddress_refines_witness :
    validateAddress
        (.obj [("receiver_name", .str "  "), ("phone", .str "12812345678"),
          ("province", .str "广东省"), ("district", .str "南山区"),
          ("detail", .str "科技园 1 号")])
      = .ok (.obj [("isValid", .bool false),
          ("errors", .arr [.str "请输入收货人姓名", .str "请输入正确的手机号码",
            .str "请选择城市"])]) :=
  (validateAddress_refines
    (.obj [("receiver_name", .str "  "), ("phone", .str "12812345678"),
      ("province", .str "广东省"), ("district", .str "南山区"),
      ("detail", .str "科技园 1 号")])
    (.str "  ") (.str "12812345678") (.str "广东省") .undefined (.str "南山区")
    (.str "科技园 1 号") rfl rfl rfl rfl rfl rfl
    (fun _ => ⟨_, rfl⟩) (fun _ => ⟨_, rfl⟩) (fun _ => ⟨_, rfl⟩)
    (fun h => absurd h (by decide)) (fun _ => ⟨_, rfl⟩) (fun _ => ⟨_, rfl⟩)).1

/-! ## The home page tabs -/

theorem categoryTabs_ok (cats : List JsVal)
    (h : ∀ c ∈ cats, c ≠ .undefined ∧ c ≠ .null) :
    ∃ tabs, categoryTabs cats = .ok tabs ∧
      List.Forall₂ (fun c tab => ∃ name id, c.getProp "name" = .ok name ∧
        c.getProp "id" = .ok id ∧ tab = .obj [("text", name), ("key", id)]) cats tabs := by
  induction cats with
  | nil => exact ⟨[], rfl, List.Forall₂.nil⟩
  | cons c rest ih =>
    obtain ⟨tabs, htabs, hall⟩ := ih (fun x hx => h x (List.mem_cons_of_mem _ hx))
    have hc := h c (List.mem_cons_self _ _)
    have hread : ∃ name id, c.getProp "name" = .ok name ∧ c.getProp "id" = .ok id := by
      cases c with
      | undefined => exact absurd rfl hc.1
      | null => exact absurd rfl hc.2
      | bool b => exact ⟨_, _, rfl, rfl⟩
      | num n => exact ⟨_, _, rfl, rfl⟩
      | str t => exact ⟨_, _, rfl, rfl⟩
      | arr items => exact ⟨_, _, rfl, rfl⟩
      | obj props => exact ⟨_, _, rfl, rfl⟩
    obtain ⟨name, id, hn, hi⟩ := hread
    refine ⟨.obj [("text", name), ("key", id)] :: tabs, ?_, ?_⟩
    · simp [categoryTabs, categoryTab, hn, hi, htabs]
    · exact List.Forall₂.cons ⟨name, id, hn, hi, rfl⟩ hall

/-- C18: `fetchCategories` never rejects. When the request resolves with a
list of `n` categories (the first five of them objects), it resolves to the
tab `{text: '精选推荐', key: 0}` followed by exactly `min n 5` tabs
`{text: name, key: id}` of the first categories in their order, at most 6 tabs
in all; when the request is rejected it resolves to the single tab
`{text: '精选推荐', key: 0}`. -/
theorem fetchCategories_tabs (self : Request) (storage : Storage)
    (outcome : TransportOutcome) :
    (∀ e, (fetchCategories self storage outcome).2.2 ≠ .rejected e) ∧
      (∀ cats,
        Effect.settle (self.get storage (.str "/api/v1/products/categories") .undefined
          .undefined outcome).2 = .resolved (.arr cats) →
        (∀ c ∈ cats.take 5, c ≠ .undefined ∧ c ≠ .null) →
        ∃ tabs, (fetchCategories self storage outcome).2.2
            = .resolved (.arr (featuredTab :: tabs)) ∧
          tabs.length = min cats.length 5 ∧ (featuredTab :: tabs).length ≤ 6 ∧
          List.Forall₂ (fun c tab => ∃ name id, c.getProp "name" = .ok name ∧
            c.getProp "id" = .ok id ∧ tab = .obj [("text", name), ("key", id)])
            (cats.take 5) tabs) ∧
      (∀ e,
        Effect.settle (self.get storage (.str "/api/v1/products/categories") .undefined
          .undefined outcome).2 = .rejected e →
        (fetchCategories self storage outcome).2.2 = .resolved (.arr [featuredTab])) := by
  refine ⟨?_, ?_, ?_⟩
  · intro e
    cases h : Effect.settle (self.get storage (.str "/api/v1/products/categories") .undefined
        .undefined outcome).2 with
    | pending => simp [fetchCategories, h]
    | rejected r => simp [fetchCategories, h]
    | resolved v => cases ht : tabListOf v <;> simp [fetchCategories, h, ht]
  · intro cats hres hobj
    obtain ⟨tabs, htabs, hall⟩ := categoryTabs_ok (cats.take 5) hobj
    have hlen : tabs.length = min cats.length 5 := by
      rw [← hall.length_eq, List.length_take, Nat.min_comm]
    refine ⟨tabs, ?_, hlen, ?_, hall⟩
    · simp [fetchCategories, hres, tabListOf, htabs]
    · simp only [List.length_cons, hlen]
      omega
  · intro e hrej
    simp [fetchCategories, hrej]

/-- An instance of C18: six categories give the featured tab and five more. -/
theorem fetchCategories_tabs_witness :
    ∃ tabs,
      (fetchCategories (Request.new "https://mall.example") []
        (.success ⟨200, .obj [("code", .num 200),
          ("data", .arr [.obj [("id", .num 1), ("name", .str "a")],
            .obj [("id", .num 2), ("name", .str "b")],
            .obj [("id", .num 3), ("name", .str "c")],
            .obj [("id", .num 4), ("name", .str "d")],
            .obj [("id", .num 5), ("name", .str "e")],
            .obj [("id", .num 6), ("name", .str "f")]])]⟩)).2.2
        = .resolved (.arr (featuredTab :: tabs)) ∧
      tabs.length = 5 :=
  have ⟨tabs, h⟩ := (fetchCategories_tabs (Request.new "https://mall.example") []
    (.success ⟨200, .obj [("code", .num 200),
      ("data", .arr [.obj [("id", .num 1), ("name", .str "a")],
        .obj [("id", .num 2), ("name", .str "b")],
        .obj [("id", .num 3), ("name", .str "c")],
        .obj [("id", .num 4), ("name", .str "d")],
        .obj [("id", .num 5), ("name", .str "e")],
        .obj [("id", .num 6), ("name", .str "f")]])]⟩)).2.1
    [.obj [("id", .num 1), ("name", .str "a")],
      .obj [("id", .num 2), ("name", .str "b")],
      .obj [("id", .num 3), ("name", .str "c")],
      .obj [("id", .num 4), ("name", .str "d")],
      .obj [("id", .num 5), ("name", .str "e")],
      .obj [("id", .num 6), ("name", .str "f")]] rfl
    (by
      intro c hc
      simp only [List.take, List.mem_cons, List.mem_singleton] at hc
      rcases hc with h | h | h | h | h | h <;> first | (subst h; simp) | simp at h)
  ⟨tabs, h.1, h.2.1⟩

/-! ## The shop router guard -/

/-- C20: for every navigation to a route (an object with a `meta` object), the
guard calls `next` exactly once; it calls it with the redirect
`{path: '/login', query: {redirect: to.fullPath}}` if and only if the name of
the target is one of Cart, Checkout, User, UserProfile, UserOrders,
UserAddress, UserFavorites, OrderDetail and no truthy token is stored, and it
calls `next()` without argument in every other case. -/
theorem router_guard (store : Shop.LocalStorage) (toRoute routeMeta title name fullPath : JsVal)
    (hmeta : toRoute.getProp "meta" = .ok routeMeta)
    (htitle : routeMeta.getProp "title" = .ok title)
    (hname : toRoute.getProp "name" = .ok name)
    (hpath : toRoute.getProp "fullPath" = .ok fullPath) :
    ∃ effects, Shop.beforeEach store toRoute = .ok effects ∧
      (Shop.GuardEffect.nexts effects).length = 1 ∧
      (Shop.GuardEffect.nexts effects
          = [some (.obj [("path", .str "/login"), ("query", .obj [("redirect", fullPath)])])] ↔
        ((∃ s, name = .str s ∧
            s ∈ ["Cart", "Checkout", "User", "UserProfile", "UserOrders", "UserAddress",
              "UserFavorites", "OrderDetail"]) ∧
          (Shop.getItem store "token").truthy = false)) ∧
      (¬ ((∃ s, name = .str s ∧
            s ∈ ["Cart", "Checkout", "User", "UserProfile", "UserOrders", "UserAddress",
              "UserFavorites", "OrderDetail"]) ∧
          (Shop.getItem store "token").truthy = false) →
        Shop.GuardEffect.nexts effects = [none]) := by
  have hinc : Shop.requiresAuthIncludes name = true ↔
      ∃ s, name = .str s ∧
        s ∈ ["Cart", "Checkout", "User", "UserProfile", "UserOrders", "UserAddress",
          "UserFavorites", "OrderDetail"] := by
    cases name <;> simp [Shop.requiresAuthIncludes, Shop.requiresAuth]
  by_cases hc : Shop.requiresAuthIncludes name = true
  · by_cases ht : (Shop.getItem store "token").truthy = true
    · refine ⟨_, by simp [Shop.beforeEach, hmeta, htitle, hname, hc, ht, bind, Except.bind,
        pure, Except.pure]; rfl, ?_, ?_, ?_⟩
      · rfl
      · refine ⟨fun h => ?_, fun h => ?_⟩
        · exact absurd h (by simp [Shop.GuardEffect.nexts])
        · rw [ht] at h
          exact absurd h.2 (by simp)
      · intro _; rfl
    · have hf : (Shop.getItem store "token").truthy = false := by simpa using ht
      refine ⟨_, by simp [Shop.beforeEach, hmeta, htitle, hname, hpath, hc, hf, bind,
        Except.bind, pure, Except.pure]; rfl, ?_, ?_, ?_⟩
      · rfl
      · exact ⟨fun _ => ⟨hinc.mp hc, hf⟩, fun _ => rfl⟩
      · intro hn
        exact absurd ⟨hinc.mp hc, hf⟩ hn
  · refine ⟨_, by simp [Shop.beforeEach, hmeta, htitle, hname, hc, bind, Except.bind,
      pure, Except.pure]; rfl, ?_, ?_, ?_⟩
    · rfl
    · have hn : ¬ ∃ s, name = .str s ∧
          s ∈ ["Cart", "Checkout", "User", "UserProfile", "UserOrders", "UserAddress",
            "UserFavorites", "OrderDetail"] := fun h => hc (hinc.mpr h)
      refine ⟨fun h => ?_, fun h => absurd h.1 hn⟩
      exact absurd h (by simp [Shop.GuardEffect.nexts])
    · intro _; rfl

/-- An instance of C20: a navigation to the cart without a stored token is
redirected to the login page with the cart path as `redirect`. -/
theorem router_guard_witness :
    ∃ effects,
      Shop.beforeEach []
          (.obj [("name", .str "Cart"), ("fullPath", .str "/cart"),
            ("meta", .obj [("title", .str "购物车")])]) = .ok effects ∧
        Shop.GuardEffect.nexts effects
          = [some (.obj [("path", .str "/login"),
              ("query", .obj [("redirect", .str "/cart")])])] :=
  have ⟨effects, h, _, hiff, _⟩ := router_guard []
    (.obj [("name", .str "Cart"), ("fullPath", .str "/cart"),
      ("meta", .obj [("title", .str "购物车")])])
    (.obj [("title", .str "购物车")]) (.str "购物车") (.str "Cart") (.str "/cart")
    rfl rfl rfl rfl
  ⟨effects, h, hiff.mpr ⟨⟨"Cart", rfl, by simp⟩, rfl⟩⟩

/-! ## Settlement of the promise -/

theorem getProp_ok_of_defined {v : JsVal} (hu : v ≠ .undefined) (hn : v ≠ .null)
    (k : String) : ∃ w, v.getProp k = .ok w := by
  cases v with
  | undefined => exact absurd rfl hu
  | null => exact absurd rfl hn
  | bool b => exact ⟨_, rfl⟩
  | num n => exact ⟨_, rfl⟩
  | str t => exact ⟨_, rfl⟩
  | arr items => exact ⟨_, rfl⟩
  | obj props => exact ⟨_, rfl⟩

theorem onSuccess_settles_once (storage : Storage) (res : WxResponse)
    (h : res.statusCode = 200 → res.data ≠ .undefined ∧ res.data ≠ .null) :
    (∃ v, (onSuccess storage res).2 = [.resolve v]) ∨
      (∃ pre e, (onSuccess storage res).2 = pre ++ [.reject e] ∧
        Effect.rejected pre = [] ∧ Effect.resolved pre = []) := by
  by_cases hs : res.statusCode = 200
  · obtain ⟨hu, hn⟩ := h hs
    obtain ⟨code, hc⟩ := getProp_ok_of_defined hu hn "code"
    obtain ⟨d, hd⟩ := getProp_ok_of_defined hu hn "data"
    obtain ⟨m, hm⟩ := getProp_ok_of_defined hu hn "message"
    by_cases h200 : code.isNum 200 = true
    · by_cases hdef : d.isDefined = true
      · exact Or.inl ⟨d, by simp [onSuccess, hs, hc, h200, hd, hdef]⟩
      · exact Or.inl ⟨res.data, by simp [onSuccess, hs, hc, h200, hd, hdef]⟩
    · by_cases h401 : code.isNum 401 = true
      · refine Or.inr ⟨[.removeStorage "token", .removeStorage "userInfo",
          .showToast (.str "请重新登录") "none", .switchTab "/pages/user/index"],
          mkError (.str "未授权"), ?_, rfl, rfl⟩
        simp [onSuccess, hs, hc, h200, h401]
      · refine Or.inr ⟨[.showToast (m.or (.str "请求失败")) "none"],
          mkError (m.or (.str "请求失败")), ?_, rfl, rfl⟩
        simp [onSuccess, hs, hc, h200, h401, hm]
  · refine Or.inr ⟨[.showToast (.str "网络错误") "none"], mkError (.str "网络错误"), ?_, rfl, rfl⟩
    simp [onSuccess, hs]

theorem Effect.rejected_append (xs ys : List Effect) :
    Effect.rejected (xs ++ ys) = Effect.rejected xs ++ Effect.rejected ys := by
  induction xs with
  | nil => rfl
  | cons x rest ih => cases x <;> simp [Effect.rejected, ih]

theorem Effect.resolved_append (xs ys : List Effect) :
    Effect.resolved (xs ++ ys) = Effect.resolved xs ++ Effect.resolved ys := by
  induction xs with
  | nil => rfl
  | cons x rest ih => cases x <;> simp [Effect.resolved, ih]

theorem Effect.settle_append_of_unsettled (xs ys : List Effect)
    (h1 : Effect.rejected xs = []) (h2 : Effect.resolved xs = []) :
    Effect.settle (xs ++ ys) = Effect.settle ys := by
  induction xs with
  | nil => rfl
  | cons x rest ih => cases x <;> simp_all [Effect.rejected, Effect.resolved, Effect.settle]

/-- C21: once the request is with the transport, if the `fail` callback fires,
or the `success` callback fires with a status other than 200, or it fires with
status 200 and a body that is neither `undefined` nor `null` (a non-null object
in particular), then `resolve` and `reject` are called exactly once between
them: either one `resolve` and no `reject`, or one `reject` and no `resolve`,
and the promise is settled. -/
theorem request_settles_once (self : Request) (storage : Storage) (options : JsVal)
    (req : WxRequest) (outcome : TransportOutcome)
    (hreq : self.buildRequest storage options = .ok req)
    (hbody : ∀ res, outcome = .success res → res.statusCode = 200 →
      res.data ≠ .undefined ∧ res.data ≠ .null) :
    (Effect.resolved (self.request storage options outcome).2).length
        + (Effect.rejected (self.request storage options outcome).2).length = 1 ∧
      (((Effect.resolved (self.request storage options outcome).2).length = 1 ∧
          Effect.rejected (self.request storage options outcome).2 = []) ∨
        ((Effect.rejected (self.request storage options outcome).2).length = 1 ∧
          Effect.resolved (self.request storage options outcome).2 = [])) ∧
      Effect.settle (self.request storage options outcome).2 ≠ .pending := by
  have key : (∃ v, (self.request storage options outcome).2 = [.wxRequest req, .resolve v]) ∨
      (∃ pre e, (self.request storage options outcome).2 = (.wxRequest req :: pre) ++ [.reject e] ∧
        Effect.rejected pre = [] ∧ Effect.resolved pre = []) := by
    rw [request_of_built hreq]
    rcases outcome with res | err
    · rcases onSuccess_settles_once storage res (hbody res rfl) with ⟨v, hv⟩ | ⟨pre, e, hp, h1, h2⟩
      · exact Or.inl ⟨v, by simp [hv]⟩
      · exact Or.inr ⟨pre, e, by simp [hp], h1, h2⟩
    · exact Or.inr ⟨[.consoleError "Request failed:" err,
        .showToast (.str "网络连接失败") "none"], mkError (.str "网络连接失败"), rfl, rfl, rfl⟩
  rcases key with ⟨v, hv⟩ | ⟨pre, e, hp, h1, h2⟩
  · rw [hv]
    refine ⟨rfl, Or.inl ⟨rfl, rfl⟩, ?_⟩
    simp [Effect.settle]
  · have hr : Effect.rejected (self.request storage options outcome).2 = [e] := by
      rw [hp, Effect.rejected_append]
      simp [Effect.rejected, h1]
    have hv : Effect.resolved (self.request storage options outcome).2 = [] := by
      rw [hp, Effect.resolved_append]
      simp [Effect.resolved, h2]
    have hst : Effect.settle (self.request storage options outcome).2 = .rejected e := by
      rw [hp, Effect.settle_append_of_unsettled _ _ (by simp [Effect.rejected, h1])
        (by simp [Effect.resolved, h2])]
      rfl
    rw [hr, hv, hst]
    refine ⟨rfl, Or.inr ⟨rfl, rfl⟩, ?_⟩
    simp

/-- An instance of C21: a body of code 200 with status 200 gives one `resolve`
and no `reject`. -/
theorem request_settles_once_witness :
    (Effect.resolved
        ((Request.new "https://mall.example").request []
          (.obj [("url", .str "/api/v1/orders")])
          (.success ⟨200, .obj [("code", .num 200), ("data", .arr [.num 1])]⟩)).2).length
      + (Effect.rejected
        ((Request.new "https://mall.example").request []
          (.obj [("url", .str "/api/v1/orders")])
          (.success ⟨200, .obj [("code", .num 200), ("data", .arr [.num 1])]⟩)).2).length
      = 1 :=
  (request_settles_once (Request.new "https://mall.example") []
    (.obj [("url", .str "/api/v1/orders")])
    ⟨"https://mall.example/api/v1/orders", .str "GET", .obj [],
      [("Content-Type", .str "application/json")], 10000⟩
    (.success ⟨200, .obj [("code", .num 200), ("data", .arr [.num 1])]⟩) rfl
    (by
      intro res hres _
      cases hres
      exact ⟨by simp, by simp⟩)).1

/-! ## The product list -/

theorem mapGoods_ok (items : List JsVal)
    (h : ∀ item ∈ items, item ≠ .undefined ∧ item ≠ .null) :
    ∃ entries, mapGoods items = .ok entries ∧
      List.Forall₂ (fun item entry =>
        entry.getProp "spuId" = item.getProp "id" ∧
        entry.getProp "thumb" = item.getProp "main_image" ∧
        entry.getProp "title" = item.getProp "name" ∧
        entry.getProp "price" = item.getProp "price" ∧
        entry.getProp "originPrice" = item.getProp "price" ∧
        ∃ sub, item.getProp "sub_title" = .ok sub ∧
          entry.getProp "tags" = .ok (if sub.truthy then .arr [sub] else .arr []))
        items entries := by
  induction items with
  | nil => exact ⟨[], rfl, List.Forall₂.nil⟩
  | cons item rest ih =>
    obtain ⟨entries, hent, hall⟩ := ih (fun x hx => h x (List.mem_cons_of_mem _ hx))
    obtain ⟨hu, hn⟩ := h item (List.mem_cons_self _ _)
    obtain ⟨id, hid⟩ := getProp_ok_of_defined hu hn "id"
    obtain ⟨img, himg⟩ := getProp_ok_of_defined hu hn "main_image"
    obtain ⟨name, hname⟩ := getProp_ok_of_defined hu hn "name"
    obtain ⟨price, hprice⟩ := getProp_ok_of_defined hu hn "price"
    obtain ⟨sub, hsub⟩ := getProp_ok_of_defined hu hn "sub_title"
    have hitem : goodsItem item = .ok (goodsEntry id img name price sub) := by
      simp only [goodsItem, hid, himg, hname, hprice, hsub, bind, Except.bind, pure,
        Except.pure]
    refine ⟨goodsEntry id img name price sub :: entries, ?_, List.Forall₂.cons ?_ hall⟩
    · simp [mapGoods, hitem, hent]
    · rw [hid, himg, hname, hprice]
      exact ⟨rfl, rfl, rfl, rfl, rfl, sub, hsub, rfl⟩

/-- C22: `fetchGoodsList` never rejects. When the request resolves with a
response `r`, the list mapped is `r.data` if truthy, else `r.list` if truthy,
else the empty list; for an array of items (objects) the call resolves to its
element-wise mapping, of the same length and order, with `originPrice` equal to
`price` and `tags` equal to `[sub_title]` when `sub_title` is truthy and to
`[]` otherwise. When the request is rejected, or the handler throws, it
resolves to the empty list. -/
theorem fetchGoodsList_mapping (self : Request) (storage : Storage)
    (pageIndex pageSize categoryId keyword : JsVal) (outcome : TransportOutcome) :
    (∀ e, (fetchGoodsList self storage pageIndex pageSize categoryId keyword outcome).2.2
        ≠ .rejected e) ∧
      (∀ r items,
        Effect.settle (self.get storage (.str "/api/v1/products")
          (goodsParams pageIndex pageSize categoryId keyword) .undefined outcome).2
          = .resolved r →
        goodsSource r = .ok (.arr items) →
        (∀ item ∈ items, item ≠ .undefined ∧ item ≠ .null) →
        ∃ entries,
          (fetchGoodsList self storage pageIndex pageSize categoryId keyword outcome).2.2
            = .resolved (.arr entries) ∧
          entries.length = items.length ∧
          List.Forall₂ (fun item entry =>
            entry.getProp "spuId" = item.getProp "id" ∧
            entry.getProp "thumb" = item.getProp "main_image" ∧
            entry.getProp "title" = item.getProp "name" ∧
            entry.getProp "price" = item.getProp "price" ∧
            entry.getProp "originPrice" = item.getProp "price" ∧
            ∃ sub, item.getProp "sub_title" = .ok sub ∧
              entry.getProp "tags" = .ok (if sub.truthy then .arr [sub] else .arr []))
            items entries) ∧
      (∀ r data list, r.getProp "data" = .ok data → r.getProp "list" = .ok list →
        (data.truthy = true → goodsSource r = .ok data) ∧
        (data.truthy = false → list.truthy = true → goodsSource r = .ok list) ∧
        (data.truthy = false → list.truthy = false → goodsSource r = .ok (.arr []))) ∧
      (∀ e,
        Effect.settle (self.get storage (.str "/api/v1/products")
          (goodsParams pageIndex pageSize categoryId keyword) .undefined outcome).2
          = .rejected e →
        (fetchGoodsList self storage pageIndex pageSize categoryId keyword outcome).2.2
          = .resolved (.arr [])) ∧
      (∀ r e,
        Effect.settle (self.get storage (.str "/api/v1/products")
          (goodsParams pageIndex pageSize categoryId keyword) .undefined outcome).2
          = .resolved r →
        goodsListHandler r = .error e →
        (fetchGoodsList self storage pageIndex pageSize categoryId keyword outcome).2.2
          = .resolved (.arr [])) := by
  refine ⟨?_, ?_, ?_, ?_, ?_⟩
  · intro e
    cases h : Effect.settle (self.get storage (.str "/api/v1/products")
        (goodsParams pageIndex pageSize categoryId keyword) .undefined outcome).2 with
    | pending => simp [fetchGoodsList, h]
    | rejected r => simp [fetchGoodsList, h]
    | resolved v => cases ht : goodsListHandler v <;> simp [fetchGoodsList, h, ht]
  · intro r items hres hsrc hobj
    obtain ⟨entries, hent, hall⟩ := mapGoods_ok items hobj
    refine ⟨entries, ?_, hall.length_eq.symm, hall⟩
    simp [fetchGoodsList, hres, goodsListHandler, hsrc, hent]
  · intro r data list hd hl
    refine ⟨?_, ?_, ?_⟩
    · intro h
      simp [goodsSource, hd, h]
    · intro h1 h2
      simp [goodsSource, hd, hl, h1, JsVal.or, h2]
    · intro h1 h2
      simp [goodsSource, hd, hl, h1, JsVal.or, h2]
  · intro e hrej
    simp [fetchGoodsList, hrej]
  · intro r e hres hthrow
    simp [fetchGoodsList, hres, hthrow]

/-- An instance of C22: a response with two products under `list` resolves to
two entries. -/
theorem fetchGoodsList_mapping_witness :
    ∃ entries,
      (fetchGoodsList (Request.new "https://mall.example") [] (.num 1) (.num 20)
        .undefined (.str "tea")
        (.success ⟨200, .obj [("code", .num 200),
          ("data", .obj [("list", .arr [
            .obj [("id", .num 1), ("price", .num 500), ("sub_title", .str "new")],
            .obj [("id", .num 2), ("price", .num 300)]])])]⟩)).2.2
        = .resolved (.arr entries) ∧
      entries.length = 2 :=
  have ⟨entries, h, hlen, _⟩ := (fetchGoodsList_mapping (Request.new "https://mall.example") []
    (.num 1) (.num 20) .undefined (.str "tea")
    (.success ⟨200, .obj [("code", .num 200),
      ("data", .obj [("list", .arr [
        .obj [("id", .num 1), ("price", .num 500), ("sub_title", .str "new")],
        .obj [("id", .num 2), ("price", .num 300)]])])]⟩)).2.1
    (.obj [("list", .arr [
      .obj [("id", .num 1), ("price", .num 500), ("sub_title", .str "new")],
      .obj [("id", .num 2), ("price", .num 300)]])])
    [.obj [("id", .num 1), ("price", .num 500), ("sub_title", .str "new")],
      .obj [("id", .num 2), ("price", .num 300)]]
    rfl rfl
    (by
      intro item hitem
      simp only [List.mem_cons, List.mem_singleton, List.not_mem_nil, or_false] at hitem
      rcases hitem with h | h <;> subst h <;> exact ⟨by simp, by simp⟩)
  ⟨entries, h, hlen⟩

end MallGo
